import Mathlib

/-!
Verification of the agentic orchestration engine in
`src/ems_langgraph/intent_langgraph.py`.

The development shallowly embeds the Python source: JSON-like runtime values
become the inductive `Value`; the mock domain store becomes the structure `DB`
threaded explicitly through every tool; a Python exception escaping a tool is
an `Except.error` carried next to the (possibly partially mutated) store; the
LangGraph loops become explicit step functions over per-loop state structures,
with the external decision service's reply supplied as an input string at each
planning step.  Python library primitives that the source calls
(`json.loads`, `re.search` on the one fenced-block pattern, `str.strip`) are
modelled by executable Lean functions on the fragment the source exercises.
-/

/-- A Python/JSON runtime value as used by the source: `None`, booleans,
numbers (the program only manipulates integral numbers), strings, lists and
string-keyed dictionaries (insertion-ordered association lists). -/
inductive Value where
  | vnull
  | vbool (b : Bool)
  | vint (n : Int)
  | vstr (s : String)
  | vlist (xs : List Value)
  | vdict (kvs : List (String × Value))

/-- Python whitespace, as in `str.strip` and the regex class `\s`:
space, tab, newline, carriage return, vertical tab, form feed. -/
def isWs (c : Char) : Bool :=
  [32, 9, 10, 13, 11, 12].contains c.toNat

/-- Drop leading whitespace characters. -/
def dropWsL : List Char → List Char
  | [] => []
  | c :: tl => if isWs c then dropWsL tl else c :: tl

/-- Models Python `str.strip()`. -/
def pyStrip (s : String) : String :=
  String.mk (((dropWsL s.data).reverse |> dropWsL).reverse)

/-- Models Python `str.lower()` on the ASCII range used by the source. -/
def lowerStr (s : String) : String :=
  String.mk (s.data.map Char.toLower)

/-- Whether `pat` occurs as a contiguous run inside `cs`
(models the Python `in` operator on strings). -/
def subRunAt : List Char → List Char → Bool
  | [], _ => true
  | _ :: _, [] => false
  | p :: ps, c :: cs => p == c && subRunAt ps cs

def containsRun (pat : List Char) : List Char → Bool
  | [] => pat.isEmpty
  | c :: cs => subRunAt pat (c :: cs) || containsRun pat cs

def strContains (hay pat : String) : Bool :=
  containsRun pat.data hay.data

/-- Index of the first occurrence of `c` (models Python `str.find`). -/
def firstIdxOf (c : Char) : List Char → Option Nat
  | [] => none
  | x :: tl => if x == c then some 0 else (firstIdxOf c tl).map (· + 1)

/-- Index of the last occurrence of `c` (models Python `str.rfind`). -/
def lastIdxOf (c : Char) : List Char → Option Nat
  | [] => none
  | x :: tl =>
      match lastIdxOf c tl with
      | some i => some (i + 1)
      | none => if x == c then some 0 else none

/-- The characters making up an opening and a closing brace; used instead of
literal brace characters throughout. -/
def obraceC : Char := Char.ofNat 123

def cbraceC : Char := Char.ofNat 125

def backtickC : Char := Char.ofNat 96

/-- Lookup in an insertion-ordered dictionary. -/
def dictLookup (kvs : List (String × Value)) (k : String) : Option Value :=
  match kvs with
  | [] => none
  | (k', v) :: tl => if k' == k then some v else dictLookup tl k

/-- Python dictionary assignment `d[k] = v`: replaces in place, appends new. -/
def dictAssign (kvs : List (String × Value)) (k : String) (v : Value) :
    List (String × Value) :=
  match kvs with
  | [] => [(k, v)]
  | (k', v') :: tl =>
      if k' == k then (k, v) :: tl else (k', v') :: dictAssign tl k v

/-- `v[k]` lookup when `v` is a dictionary; `none` otherwise (a `.get` on a
non-dictionary raises in Python and is handled at each use site). -/
def Value.lookup (v : Value) (k : String) : Option Value :=
  match v with
  | .vdict kvs => dictLookup kvs k
  | _ => none

/-- Models `d.get(k, dflt)` on a dictionary value. -/
def vGetD (v : Value) (k : String) (dflt : Value) : Value :=
  (v.lookup k).getD dflt

/-- Models `k in d` on a dictionary value. -/
def vHasKey (v : Value) (k : String) : Bool :=
  (v.lookup k).isSome

/-- Dictionary assignment lifted to `Value` (no-op on non-dictionaries,
which does not arise in the modelled paths). -/
def vAssign (v : Value) (k : String) (x : Value) : Value :=
  match v with
  | .vdict kvs => .vdict (dictAssign kvs k x)
  | other => other

/-- Python truthiness of a value (`if v:`). -/
def pyTruthy : Value → Bool
  | .vnull => false
  | .vbool b => b
  | .vint n => n != 0
  | .vstr s => s != ""
  | .vlist xs => !xs.isEmpty
  | .vdict kvs => !kvs.isEmpty

/-- Python `==` between the scalar values the source actually compares
(identifiers, flags, enumeration strings); composite comparisons do not occur
on the modelled paths and are conservatively `false`. -/
def scalarEq : Value → Value → Bool
  | .vstr a, .vstr b => a == b
  | .vint a, .vint b => a == b
  | .vbool a, .vbool b => a == b
  | .vint a, .vbool b => a == (if b then (1 : Int) else 0)
  | .vbool a, .vint b => (if a then (1 : Int) else 0) == b
  | .vnull, .vnull => true
  | _, _ => false

/-- Python `len()` on the container values the source measures. -/
def lenV : Value → Nat
  | .vlist xs => xs.length
  | .vdict kvs => kvs.length
  | .vstr s => s.data.length
  | _ => 0

/-- Python `str()` of scalars as interpolated into messages; composite values
are abbreviated (the summaries are display-only strings). -/
def pyStr : Value → String
  | .vnull => "None"
  | .vbool true => "True"
  | .vbool false => "False"
  | .vint n => toString n
  | .vstr s => s
  | .vlist _ => "[...]"
  | .vdict _ => "dict"

/-- Membership of a value in a list of enumeration strings, as in
`x in ["signalDetection", "spectralEnergy"]`. -/
def isStrIn (v : Value) (options : List String) : Bool :=
  match v with
  | .vstr s => options.contains s
  | _ => false

/-- The uniform error result `{error: msg}` (section 4.2 of the spec). -/
def errDict (msg : String) : Value :=
  .vdict [("error", .vstr msg)]

/-- `isinstance(result, dict) and "error" in result`: how every executor node
distinguishes failure from success structurally. -/
def hasErrorKey (v : Value) : Bool :=
  match v with
  | .vdict kvs => (dictLookup kvs "error").isSome
  | _ => false

/-! ## A model of `json.loads`

The source hands every decision-service reply to Python's `json.loads`.  The
parser below implements the JSON fragment the program exchanges (null,
booleans, integers, strings with the standard escapes, arrays, objects with
later duplicate keys winning), rejecting everything else; floating-point
literals are not produced by any modelled path and are rejected. -/

def digitVal (c : Char) : Option Nat :=
  let n := c.toNat
  if 48 ≤ n && n ≤ 57 then some (n - 48) else none

def hexVal (c : Char) : Option Nat :=
  let n := c.toNat
  if 48 ≤ n && n ≤ 57 then some (n - 48)
  else if 97 ≤ n && n ≤ 102 then some (n - 87)
  else if 65 ≤ n && n ≤ 70 then some (n - 55)
  else none

/-- Consume a run of decimal digits, accumulating their value. -/
def parseNatAcc : List Char → Nat → (Nat × List Char)
  | [], acc => (acc, [])
  | c :: cs, acc =>
      match digitVal c with
      | some d => parseNatAcc cs (acc * 10 + d)
      | none => (acc, c :: cs)

/-- After the integer part, JSON floats continue with `.`, `e` or `E`;
those are rejected by this model. -/
def startsFloatTail : List Char → Bool
  | [] => false
  | c :: _ => c == '.' || c == 'e' || c == 'E'

/-- Parse a JSON number (integral only). -/
def jsonNumberCore : List Char → Option (Int × List Char)
  | [] => none
  | c :: cs =>
      if c == '0' then
        if startsFloatTail cs then none
        else match cs with
          | d :: _ => if (digitVal d).isSome then none else some (0, cs)
          | [] => some (0, [])
      else
        match digitVal c with
        | some d =>
            let (n, rest) := parseNatAcc cs d
            if startsFloatTail rest then none else some ((n : Int), rest)
        | none => none

def jsonNumber : List Char → Option (Value × List Char)
  | [] => none
  | c :: cs =>
      if c == '-' then
        (jsonNumberCore cs).map (fun p => (.vint (-p.1), p.2))
      else
        (jsonNumberCore (c :: cs)).map (fun p => (.vint p.1, p.2))

def parseHex4 : List Char → Option (Nat × List Char)
  | a :: b :: c :: d :: rest =>
      match hexVal a, hexVal b, hexVal c, hexVal d with
      | some x, some y, some z, some w =>
          some (((x * 16 + y) * 16 + z) * 16 + w, rest)
      | _, _, _, _ => none
  | _ => none

/-- Parse the body of a JSON string after the opening quote, returning the
decoded characters and the input after the closing quote; `fuel` bounds the
recursion (each step consumes at least one character). -/
def jsonStringCharsF : Nat → List Char → Option (List Char × List Char)
  | 0, _ => none
  | Nat.succ _, [] => none
  | Nat.succ fuel, c :: cs =>
      if c == '"' then some ([], cs)
      else if c == '\\' then
        match cs with
        | [] => none
        | e :: cs' =>
            let cont (ch : Char) (rest : List Char) :
                Option (List Char × List Char) :=
              (jsonStringCharsF fuel rest).map (fun p => (ch :: p.1, p.2))
            if e == '"' then cont '"' cs'
            else if e == '\\' then cont '\\' cs'
            else if e == '/' then cont '/' cs'
            else if e == 'n' then cont '\n' cs'
            else if e == 't' then cont '\t' cs'
            else if e == 'r' then cont '\r' cs'
            else if e == 'b' then cont '\x08' cs'
            else if e == 'f' then cont '\x0c' cs'
            else if e == 'u' then
              match parseHex4 cs' with
              | some (n, rest) => cont (Char.ofNat n) rest
              | none => none
            else none
      else if c.toNat < 32 then none
      else (jsonStringCharsF fuel cs).map (fun p => (c :: p.1, p.2))

def jsonStringChars (cs : List Char) : Option (List Char × List Char) :=
  jsonStringCharsF (cs.length + 1) cs

mutual

/-- Parse one JSON value; `fuel` bounds the recursion and is chosen large
enough by `json_loads` below. -/
def parseJsonV : Nat → List Char → Option (Value × List Char)
  | 0, _ => none
  | Nat.succ fuel, cs =>
      match dropWsL cs with
      | 'n' :: 'u' :: 'l' :: 'l' :: rest => some (.vnull, rest)
      | 't' :: 'r' :: 'u' :: 'e' :: rest => some (.vbool true, rest)
      | 'f' :: 'a' :: 'l' :: 's' :: 'e' :: rest => some (.vbool false, rest)
      | '"' :: rest =>
          (jsonStringChars rest).map
            (fun p => (.vstr (String.mk p.1), p.2))
      | c :: rest =>
          if c == '[' then parseArrStart fuel rest
          else if c == obraceC then parseObjStart fuel rest
          else jsonNumber (c :: rest)
      | [] => none

/-- After `[`: either an empty array or a comma-separated element list. -/
def parseArrStart : Nat → List Char → Option (Value × List Char)
  | 0, _ => none
  | Nat.succ fuel, cs =>
      match dropWsL cs with
      | ']' :: rest => some (.vlist [], rest)
      | other => parseArrLoop fuel other []

def parseArrLoop (fuel : Nat) (cs : List Char) (acc : List Value) :
    Option (Value × List Char) :=
  match fuel with
  | 0 => none
  | Nat.succ fuel =>
      match parseJsonV fuel cs with
      | none => none
      | some (v, rest) =>
          match dropWsL rest with
          | ',' :: rest' => parseArrLoop fuel rest' (acc ++ [v])
          | ']' :: rest' => some (.vlist (acc ++ [v]), rest')
          | _ => none

/-- After the opening brace: either an empty object or `"key": value` pairs;
a repeated key overwrites the earlier one, as in Python. -/
def parseObjStart : Nat → List Char → Option (Value × List Char)
  | 0, _ => none
  | Nat.succ fuel, cs =>
      match dropWsL cs with
      | c :: rest =>
          if c == cbraceC then some (.vdict [], rest)
          else parseObjLoop fuel (c :: rest) []
      | [] => none

def parseObjLoop (fuel : Nat) (cs : List Char)
    (acc : List (String × Value)) : Option (Value × List Char) :=
  match fuel with
  | 0 => none
  | Nat.succ fuel =>
      match dropWsL cs with
      | '"' :: rest =>
          match jsonStringChars rest with
          | none => none
          | some (kcs, rest') =>
              match dropWsL rest' with
              | ':' :: rest'' =>
                  match parseJsonV fuel rest'' with
                  | none => none
                  | some (v, rest''') =>
                      let acc' := dictAssign acc (String.mk kcs) v
                      match dropWsL rest''' with
                      | ',' :: more => parseObjLoop fuel more acc'
                      | c :: more =>
                          if c == cbraceC then some (.vdict acc', more)
                          else none
                      | [] => none
              | _ => none
      | _ => none

end

/-- Models `json.loads` on the fragment described above: parse one value and
require only whitespace to remain. -/
def json_loads (s : String) : Option Value :=
  let cs := s.data
  match parseJsonV (2 * cs.length + 8) cs with
  | some (v, rest) => if (dropWsL rest).isEmpty then some v else none
  | none => none

/-! ## The Response Extractor/Repair (spec 4.3)

`extract_json_from_response` first applies the regex
search for a fenced code block (three backticks, optionally tagged `json`,
whose content starts with an opening brace and ends with a closing brace
followed only by whitespace before the closing fence); the functions below
implement exactly that one pattern's backtracking behaviour:
the earliest starting position wins and the lazy body extends to the first
closing brace whose tail closes the fence. -/

def tickRun : List Char := [backtickC, backtickC, backtickC]

def jsonTagRun : List Char := ['j', 's', 'o', 'n']

/-- Match `pat` literally at the head, returning the remainder. -/
def dropRun : List Char → List Char → Option (List Char)
  | [], t => some t
  | _ :: _, [] => none
  | p :: ps, c :: cs => if p == c then dropRun ps cs else none

/-- After a candidate closing brace: whitespace then three backticks. -/
def fenceCloses (cs : List Char) : Bool :=
  (dropRun tickRun (dropWsL cs)).isSome

/-- Scan lazily for the first closing brace that closes the fence; `acc`
holds the reversed body read so far. -/
def fenceBodyScan : List Char → List Char → Option (List Char)
  | _, [] => none
  | acc, c :: tl =>
      if c == cbraceC && fenceCloses tl then some ((c :: acc).reverse)
      else fenceBodyScan (c :: acc) tl

/-- Try the fenced-block pattern anchored at the current position. -/
def fenceAt (cs : List Char) : Option (List Char) :=
  match dropRun tickRun cs with
  | none => none
  | some rest =>
      let rest' := match dropRun jsonTagRun rest with
                   | some r => r
                   | none => rest
      match dropWsL rest' with
      | c :: tl =>
          if c == obraceC then fenceBodyScan [c] tl else none
      | [] => none

/-- `re.search`: try every starting position left to right. -/
def fenceSearch : List Char → Option (List Char)
  | [] => none
  | c :: tl =>
      match fenceAt (c :: tl) with
      | some g => some g
      | none => fenceSearch tl

/-- The brace-window fallback: characters from the first opening brace to the
last closing brace inclusive, when the latter is strictly later. -/
def braceWindow (cs : List Char) : Option (List Char) :=
  match firstIdxOf obraceC cs, lastIdxOf cbraceC cs with
  | some f, some l =>
      if f < l then some ((cs.drop f).take (l + 1 - f)) else none
  | _, _ => none

/-- `extract_json_from_response` from the source: strip, then fenced block,
then brace window, then the original text. -/
def extract_json_from_response (response_text : String) : String :=
  let text := pyStrip response_text
  match fenceSearch text.data with
  | some g => pyStrip (String.mk g)
  | none =>
      match braceWindow text.data with
      | some w => pyStrip (String.mk w)
      | none => text

/-- `safe_parse_json` from the source: direct parse of the stripped text,
then parse of the extracted text, else the caller's default (or the empty
dictionary) with `False`. -/
def safe_parse_json (response_text : String) (default_value : Option Value) :
    Value × Bool :=
  let dflt := default_value.getD (.vdict [])
  match json_loads (pyStrip response_text) with
  | some v => (v, true)
  | none =>
      match json_loads (extract_json_from_response response_text) with
      | some v => (v, true)
      | none => (dflt, false)

/-! ## The mock domain store and the tools

`MOCK_DATABASE` and the tool functions.  Each tool takes its keyword-argument
bag as a dictionary `Value` plus the store, and returns an
`Except String Value` — `.error` models a Python exception escaping the tool
(bad keyword binding, `KeyError`, a comparison `TypeError`) and is paired with
the store as mutated so far, since Python mutates the shared objects in
place.  `uuid.uuid4()` is modelled by a deterministic counter in the store and
`datetime.utcnow()` by the store's fixed clock fields.  Quote ornamentation
inside interpolated error messages is omitted. -/

structure DB where
  rules : List Value
  conditions : List (String × List Value)
  actions : List (String × List Value)
  uuidCounter : Nat
  nowIso : String
  nowTs : Int

def assocGet (m : List (String × List Value)) (k : String) :
    Option (List Value) :=
  match m with
  | [] => none
  | (k', v) :: tl => if k' == k then some v else assocGet tl k

/-- Models `d.get(rule_id, [])` on the per-rule maps. -/
def assocGetD (m : List (String × List Value)) (k : String) : List Value :=
  (assocGet m k).getD []

def assocAssign (m : List (String × List Value)) (k : String)
    (v : List Value) : List (String × List Value) :=
  match m with
  | [] => [(k, v)]
  | (k', v') :: tl =>
      if k' == k then (k, v) :: tl else (k', v') :: assocAssign tl k v

/-- The seeded `MOCK_DATABASE`. -/
def mockDatabase : DB where
  rules :=
    [ .vdict [("id", .vstr "rule-001"), ("name", .vstr "5G Monitor"),
        ("description", .vstr "Monitors 5G signals in mid-band"),
        ("isEnabled", .vbool true),
        ("createdAt", .vstr "2024-01-15T10:30:00Z")],
      .vdict [("id", .vstr "rule-002"), ("name", .vstr "LTE Detector"),
        ("description", .vstr "Detects LTE signals"),
        ("isEnabled", .vbool true),
        ("createdAt", .vstr "2024-01-20T14:00:00Z")],
      .vdict [("id", .vstr "rule-003"),
        ("name", .vstr "Energy Threshold Alert"),
        ("description", .vstr "Alerts when energy exceeds threshold"),
        ("isEnabled", .vbool false),
        ("createdAt", .vstr "2024-02-01T09:00:00Z")] ]
  conditions :=
    [ ("rule-001",
        [ .vdict [("id", .vstr "cond-001"), ("rule_id", .vstr "rule-001"),
            ("conditionType", .vstr "signalDetection"),
            ("parameters", .vdict [("minFrequencyMHz", .vint 3400),
              ("maxFrequencyMHz", .vint 3600), ("signalType", .vstr "5G")])] ]),
      ("rule-002",
        [ .vdict [("id", .vstr "cond-002"), ("rule_id", .vstr "rule-002"),
            ("conditionType", .vstr "signalDetection"),
            ("parameters", .vdict [("minFrequencyMHz", .vint 1800),
              ("maxFrequencyMHz", .vint 2100), ("signalType", .vstr "LTE")])] ]),
      ("rule-003",
        [ .vdict [("id", .vstr "cond-003"), ("rule_id", .vstr "rule-003"),
            ("conditionType", .vstr "spectralEnergy"),
            ("parameters", .vdict [("minFrequencyMHz", .vint 2400),
              ("maxFrequencyMHz", .vint 2500),
              ("threshold_dBm", .vint (-70))])] ]) ]
  actions :=
    [ ("rule-001",
        [ .vdict [("id", .vstr "act-001"), ("rule_id", .vstr "rule-001"),
            ("actionType", .vstr "userNotification"),
            ("parameters",
              .vdict [("message", .vstr "5G signal detected in mid-band")])] ]),
      ("rule-002",
        [ .vdict [("id", .vstr "act-002"), ("rule_id", .vstr "rule-002"),
            ("actionType", .vstr "frequencyScanRequest"),
            ("parameters", .vdict [("sensorIds",
              .vlist [.vstr "sensor-01", .vstr "sensor-02"])])] ]),
      ("rule-003",
        [ .vdict [("id", .vstr "act-003"), ("rule_id", .vstr "rule-003"),
            ("actionType", .vstr "geolocationRequest"),
            ("parameters", .vdict [("algorithm", .vstr "TDOA"),
              ("sensorIds", .vlist [.vstr "sensor-01", .vstr "sensor-02",
                .vstr "sensor-03"])])] ]) ]
  uuidCounter := 0
  nowIso := "2024-06-01T00:00:00"
  nowTs := 1717200000

/-- A tool body: parameter bag and store in, outcome and store out. -/
def ToolFn : Type := Value → DB → (Except String Value) × DB

/-- Keyword-argument binding for `f(**parameters)`: an unexpected or missing
keyword raises `TypeError` before the body runs. -/
def bindParams (allowed required : List String) (params : Value) :
    Except String (List (String × Value)) :=
  match params with
  | .vdict kvs =>
      if kvs.any (fun kv => !(allowed.contains kv.1)) then
        .error "TypeError: unexpected keyword argument"
      else if required.any (fun r => (dictLookup kvs r).isNone) then
        .error "TypeError: missing required argument"
      else .ok kvs
  | _ => .error "TypeError: argument after ** must be a mapping"

/-- A numeric comparison operand; anything non-numeric raises `TypeError`
(Python booleans compare as integers). -/
def cmpNum (v : Value) : Except String Int :=
  match v with
  | .vint n => .ok n
  | .vbool b => .ok (if b then 1 else 0)
  | _ => .error "TypeError: comparison with non-number"

/-- `any(r["id"] == rule_id for r in rules)` / the lookup loops: scan for the
first rule whose `id` equals the argument, raising on a rule without an id. -/
def findRuleScan (rid : Value) : List Value → Except String (Option Value)
  | [] => .ok none
  | r :: tl =>
      match r.lookup "id" with
      | none => .error "KeyError: id"
      | some idv =>
          if scalarEq idv rid then .ok (some r) else findRuleScan rid tl

def list_automation_rules : ToolFn := fun params db =>
  match bindParams [] [] params with
  | .error e => (.error e, db)
  | .ok _ => (.ok (.vlist db.rules), db)

def get_automation_rule : ToolFn := fun params db =>
  match bindParams ["rule_id"] ["rule_id"] params with
  | .error e => (.error e, db)
  | .ok kvs =>
      let rid := (dictLookup kvs "rule_id").getD .vnull
      match findRuleScan rid db.rules with
      | .error e => (.error e, db)
      | .ok (some r) => (.ok r, db)
      | .ok none =>
          (.ok (errDict ("Rule with id " ++ pyStr rid ++ " not found")), db)

def list_conditions_for_rule : ToolFn := fun params db =>
  match bindParams ["rule_id"] ["rule_id"] params with
  | .error e => (.error e, db)
  | .ok kvs =>
      match (dictLookup kvs "rule_id").getD .vnull with
      | .vstr s => (.ok (.vlist (assocGetD db.conditions s)), db)
      | _ => (.ok (.vlist []), db)

def list_actions_for_rule : ToolFn := fun params db =>
  match bindParams ["rule_id"] ["rule_id"] params with
  | .error e => (.error e, db)
  | .ok kvs =>
      match (dictLookup kvs "rule_id").getD .vnull with
      | .vstr s => (.ok (.vlist (assocGetD db.actions s)), db)
      | _ => (.ok (.vlist []), db)

/-- Condition reset performed by activation. -/
def resetConds (conds : List Value) : List Value :=
  conds.map (fun c =>
    vAssign (vAssign c "isSatisfied" (.vbool false)) "satisfiedAt" .vnull)

/-- The scan-and-mutate loop of `activate_automation_rule`; `seen` holds the
already scanned rules in reverse. -/
def activateScan (db : DB) (rid : Value) :
    List Value → List Value → (Except String Value) × DB
  | _, [] =>
      (.ok (errDict ("Rule with ID " ++ pyStr rid ++ " not found")), db)
  | seen, r :: tl =>
      match r.lookup "id" with
      | none => (.error "KeyError: id", db)
      | some idv =>
          if scalarEq idv rid then
            match r.lookup "isEnabled", r.lookup "name" with
            | some en, some namev =>
                if pyTruthy en then
                  (.ok (.vdict [("success", .vbool true), ("rule_id", rid),
                    ("rule_name", namev), ("status", .vstr "already_active"),
                    ("message", .vstr ("Rule " ++ pyStr namev ++ " (ID: " ++
                      pyStr rid ++ ") is already activated."))]), db)
                else
                  let r' := vAssign (vAssign r "isEnabled" (.vbool true))
                    "updatedAt" (.vstr (db.nowIso ++ "Z"))
                  let conds' := match rid with
                    | .vstr s =>
                        match assocGet db.conditions s with
                        | some cs => assocAssign db.conditions s (resetConds cs)
                        | none => db.conditions
                    | _ => db.conditions
                  (.ok (.vdict [("success", .vbool true), ("rule_id", rid),
                    ("rule_name", namev), ("status", .vstr "activated"),
                    ("message", .vstr ("Rule " ++ pyStr namev ++ " (ID: " ++
                      pyStr rid ++ ") has been activated successfully. " ++
                      "The rule is now monitoring for conditions and will " ++
                      "execute actions when all conditions are met."))]),
                   { db with rules := seen.reverse ++ r' :: tl,
                             conditions := conds' })
            | _, _ => (.error "KeyError: rule field", db)
          else activateScan db rid (r :: seen) tl

def activate_automation_rule : ToolFn := fun params db =>
  match bindParams ["rule_id"] ["rule_id"] params with
  | .error e => (.error e, db)
  | .ok kvs =>
      activateScan db ((dictLookup kvs "rule_id").getD .vnull) [] db.rules

/-- The scan-and-mutate loop of `deactivate_automation_rule`. -/
def deactivateScan (db : DB) (rid : Value) :
    List Value → List Value → (Except String Value) × DB
  | _, [] =>
      (.ok (errDict ("Rule with ID " ++ pyStr rid ++ " not found")), db)
  | seen, r :: tl =>
      match r.lookup "id" with
      | none => (.error "KeyError: id", db)
      | some idv =>
          if scalarEq idv rid then
            match r.lookup "isEnabled", r.lookup "name" with
            | some en, some namev =>
                if !(pyTruthy en) then
                  (.ok (.vdict [("success", .vbool true), ("rule_id", rid),
                    ("rule_name", namev), ("status", .vstr "already_inactive"),
                    ("message", .vstr ("Rule " ++ pyStr namev ++ " (ID: " ++
                      pyStr rid ++ ") is already deactivated."))]), db)
                else
                  let r' := vAssign (vAssign r "isEnabled" (.vbool false))
                    "updatedAt" (.vstr (db.nowIso ++ "Z"))
                  (.ok (.vdict [("success", .vbool true), ("rule_id", rid),
                    ("rule_name", namev), ("status", .vstr "deactivated"),
                    ("message", .vstr ("Rule " ++ pyStr namev ++ " (ID: " ++
                      pyStr rid ++ ") has been deactivated successfully. " ++
                      "The rule configuration is preserved and can be " ++
                      "reactivated later."))]),
                   { db with rules := seen.reverse ++ r' :: tl })
            | _, _ => (.error "KeyError: rule field", db)
          else deactivateScan db rid (r :: seen) tl

def deactivate_automation_rule : ToolFn := fun params db =>
  match bindParams ["rule_id"] ["rule_id"] params with
  | .error e => (.error e, db)
  | .ok kvs =>
      deactivateScan db ((dictLookup kvs "rule_id").getD .vnull) [] db.rules

/-! ## `update_condition` and `update_action`

The update tools mutate the targeted sub-record in place; each validation
step may end the call early (returning an error dictionary) or raise, in both
cases leaving the mutations already made visible in the store. -/

def validSignalTypes : List String :=
  ["Energy", "5G", "LTE", "QPSK", "CW", "PCMPM", "CPM", "CPMFM", "BPSK",
   "SOQPSK"]

/-- Outcome of one validation/mutation step over the targeted sub-record. -/
inductive StepRes where
  | raised (e : String) (target : Value)
  | errored (msg : String) (target : Value)
  | next (target : Value) (updates : List String)

def StepRes.andThen (r : StepRes) (f : Value → List String → StepRes) :
    StepRes :=
  match r with
  | .next t u => f t u
  | other => other

/-- `target["parameters"][key] = v`. -/
def setParamKey (t : Value) (key : String) (v : Value) : Value :=
  vAssign t "parameters" (vAssign (vGetD t "parameters" (.vdict [])) key v)

def replaceAt : List Value → Nat → Value → List Value
  | [], _, _ => []
  | _ :: tl, 0, v => v :: tl
  | c :: tl, Nat.succ n, v => c :: replaceAt tl n v

/-- Scan a sub-record list for the entry with the given id, returning its
position. -/
def findIdIdx (cid : Value) : List Value → Except String (Option Nat)
  | [] => .ok none
  | c :: tl =>
      match c.lookup "id" with
      | none => .error "KeyError: id"
      | some idv =>
          if scalarEq idv cid then .ok (some 0)
          else
            match findIdIdx cid tl with
            | .ok (some i) => .ok (some (i + 1))
            | other => other

/-- `if condition_type: ...` step of `update_condition`. -/
def ucTypeStep (ct : Value) (t : Value) (u : List String) : StepRes :=
  if pyTruthy ct then
    if !(isStrIn ct ["signalDetection", "spectralEnergy"]) then
      .errored "Invalid condition_type. Must be one of: signalDetection, spectralEnergy" t
    else
      .next (vAssign t "conditionType" ct) (u ++ ["conditionType -> " ++ pyStr ct])
  else .next t u

/-- One numeric parameter key of `update_condition`. -/
def ucNumParam (ps : Value) (key : String) (lo hi : Int) (msg : String)
    (t : Value) (u : List String) : StepRes :=
  if vHasKey ps key then
    let mv := vGetD ps key .vnull
    match cmpNum mv with
    | .error e => .raised e t
    | .ok n =>
        if !(lo ≤ n && n ≤ hi) then .errored msg t
        else .next (setParamKey t key mv) (u ++ [key ++ " -> " ++ pyStr mv])
  else .next t u

/-- The `signalType` parameter key of `update_condition`. -/
def ucSignalParam (ps : Value) (t : Value) (u : List String) : StepRes :=
  if vHasKey ps "signalType" then
    let sv := vGetD ps "signalType" .vnull
    if !(isStrIn sv validSignalTypes) then
      .errored "Invalid signalType. Must be one of the supported signal types" t
    else
      .next (setParamKey t "signalType" sv) (u ++ ["signalType -> " ++ pyStr sv])
  else .next t u

/-- `if parameters: ...` block of `update_condition` (the computed
`current_type` in the source is unused and omitted). -/
def ucParamsStep (ps : Value) (t : Value) (u : List String) : StepRes :=
  if pyTruthy ps then
    let t1 := if vHasKey t "parameters" then t
              else vAssign t "parameters" (.vdict [])
    (ucNumParam ps "minFrequencyMHz" 10 6000
        "minFrequencyMHz must be between 10 and 6000" t1 u).andThen
      (fun t2 u2 => (ucNumParam ps "maxFrequencyMHz" 10 6000
          "maxFrequencyMHz must be between 10 and 6000" t2 u2).andThen
        (fun t3 u3 => (ucSignalParam ps t3 u3).andThen
          (fun t4 u4 => ucNumParam ps "threshold_dBm" (-150) 150
            "threshold_dBm must be between -150 and 150" t4 u4)))
  else .next t u

/-- `if description: ...` step. -/
def descStep (d : Value) (t : Value) (u : List String) : StepRes :=
  if pyTruthy d then
    .next (vAssign t "description" d) (u ++ ["description updated"])
  else .next t u

/-- Tail of `update_condition` once the target condition (at index `i` of
`conds`, the conditions of rule `ridS`) is selected. -/
def updateCondCore (db : DB) (rule_id : Value) (ridS : String)
    (conds : List Value) (i : Nat)
    (condition_type parameters description : Value) :
    (Except String Value) × DB :=
  let target0 := (conds.get? i).getD .vnull
  let wb := fun (t : Value) =>
    { db with conditions := assocAssign db.conditions ridS (replaceAt conds i t) }
  match (ucTypeStep condition_type target0 []).andThen
      (fun t u => (ucParamsStep parameters t u).andThen
        (fun t' u' => descStep description t' u')) with
  | .raised e t => (.error e, wb t)
  | .errored msg t => (.ok (errDict msg), wb t)
  | .next t u =>
      let tF := vAssign t "updatedAt" (.vint db.nowTs)
      match tF.lookup "id" with
      | none => (.error "KeyError: id", wb tF)
      | some cidv =>
          if u.isEmpty then
            (.ok (.vdict [("success", .vbool true), ("condition_id", cidv),
              ("rule_id", rule_id),
              ("message", .vstr "No changes were made. Provide parameters to update."),
              ("current_condition", tF)]), wb tF)
          else
            match tF.lookup "conditionType" with
            | none => (.error "KeyError: conditionType", wb tF)
            | some ctv =>
                (.ok (.vdict [("success", .vbool true), ("condition_id", cidv),
                  ("rule_id", rule_id), ("conditionType", ctv),
                  ("updates_made", .vlist (u.map Value.vstr)),
                  ("message", .vstr ("Condition " ++ pyStr cidv ++
                    " updated successfully. Changes: " ++
                    String.intercalate ", " u)),
                  ("updated_condition", tF)]), wb tF)

def update_condition : ToolFn := fun params db =>
  match bindParams
      ["rule_id", "condition_id", "condition_type", "parameters",
       "description"] ["rule_id"] params with
  | .error e => (.error e, db)
  | .ok kvs =>
      let rule_id := (dictLookup kvs "rule_id").getD .vnull
      let condition_id := (dictLookup kvs "condition_id").getD .vnull
      let condition_type := (dictLookup kvs "condition_type").getD .vnull
      let parameters := (dictLookup kvs "parameters").getD .vnull
      let description := (dictLookup kvs "description").getD .vnull
      match findRuleScan rule_id db.rules with
      | .error e => (.error e, db)
      | .ok none =>
          (.ok (errDict ("Rule with ID " ++ pyStr rule_id ++ " not found")), db)
      | .ok (some _) =>
          let ridS := match rule_id with | .vstr s => s | _ => ""
          let conds := match rule_id with
                       | .vstr s => assocGetD db.conditions s
                       | _ => []
          if conds.isEmpty then
            (.ok (errDict ("No conditions found for rule " ++ pyStr rule_id)), db)
          else
            if pyTruthy condition_id then
              match findIdIdx condition_id conds with
              | .error e => (.error e, db)
              | .ok none =>
                  (.ok (errDict ("Condition with ID " ++ pyStr condition_id ++
                    " not found for rule " ++ pyStr rule_id)), db)
              | .ok (some i) =>
                  updateCondCore db rule_id ridS conds i condition_type
                    parameters description
            else
              updateCondCore db rule_id ridS conds 0 condition_type
                parameters description

/-- `if action_type: ...` step of `update_action`. -/
def uaTypeStep (at_ : Value) (t : Value) (u : List String) : StepRes :=
  if pyTruthy at_ then
    if !(isStrIn at_
        ["frequencyScanRequest", "geolocationRequest", "userNotification"]) then
      .errored "Invalid action_type. Must be one of: frequencyScanRequest, geolocationRequest, userNotification" t
    else
      .next (vAssign t "actionType" at_) (u ++ ["actionType -> " ++ pyStr at_])
  else .next t u

/-- The `message` parameter key: `.strip()` raises on a non-string. -/
def uaMessageParam (ps : Value) (t : Value) (u : List String) : StepRes :=
  if vHasKey ps "message" then
    match vGetD ps "message" .vnull with
    | .vstr m =>
        if pyStrip m == "" then
          .errored "Notification message cannot be empty" t
        else
          .next (setParamKey t "message" (.vstr m)) (u ++ ["message updated"])
    | _ => .raised "AttributeError: strip" t
  else .next t u

/-- The `sensorIds` parameter key. -/
def uaSensorParam (ps : Value) (t : Value) (u : List String) : StepRes :=
  if vHasKey ps "sensorIds" then
    match vGetD ps "sensorIds" .vnull with
    | .vlist xs =>
        if xs.isEmpty then .errored "sensorIds must be a non-empty list" t
        else
          .next (setParamKey t "sensorIds" (.vlist xs))
            (u ++ ["sensorIds -> " ++ pyStr (.vlist xs)])
    | _ => .errored "sensorIds must be a non-empty list" t
  else .next t u

/-- The `algorithm` parameter key. -/
def uaAlgoParam (ps : Value) (t : Value) (u : List String) : StepRes :=
  if vHasKey ps "algorithm" then
    let av := vGetD ps "algorithm" .vnull
    if !(isStrIn av ["TDOA", "PDOA"]) then
      .errored "Invalid algorithm. Must be one of: TDOA, PDOA" t
    else
      .next (setParamKey t "algorithm" av) (u ++ ["algorithm -> " ++ pyStr av])
  else .next t u

/-- `if parameters: ...` block of `update_action`. -/
def uaParamsStep (ps : Value) (t : Value) (u : List String) : StepRes :=
  if pyTruthy ps then
    let t1 := if vHasKey t "parameters" then t
              else vAssign t "parameters" (.vdict [])
    (uaMessageParam ps t1 u).andThen
      (fun t2 u2 => (uaSensorParam ps t2 u2).andThen
        (fun t3 u3 => uaAlgoParam ps t3 u3))
  else .next t u

/-- Tail of `update_action` once the target action is selected. -/
def updateActCore (db : DB) (rule_id : Value) (ridS : String)
    (acts : List Value) (i : Nat)
    (action_type parameters description : Value) :
    (Except String Value) × DB :=
  let target0 := (acts.get? i).getD .vnull
  let wb := fun (t : Value) =>
    { db with actions := assocAssign db.actions ridS (replaceAt acts i t) }
  match (uaTypeStep action_type target0 []).andThen
      (fun t u => (uaParamsStep parameters t u).andThen
        (fun t' u' => descStep description t' u')) with
  | .raised e t => (.error e, wb t)
  | .errored msg t => (.ok (errDict msg), wb t)
  | .next t u =>
      let tF := vAssign t "updatedAt" (.vint db.nowTs)
      match tF.lookup "id" with
      | none => (.error "KeyError: id", wb tF)
      | some aidv =>
          if u.isEmpty then
            (.ok (.vdict [("success", .vbool true), ("action_id", aidv),
              ("rule_id", rule_id),
              ("message", .vstr "No changes were made. Provide parameters to update."),
              ("current_action", tF)]), wb tF)
          else
            match tF.lookup "actionType" with
            | none => (.error "KeyError: actionType", wb tF)
            | some atv =>
                (.ok (.vdict [("success", .vbool true), ("action_id", aidv),
                  ("rule_id", rule_id), ("actionType", atv),
                  ("updates_made", .vlist (u.map Value.vstr)),
                  ("message", .vstr ("Action " ++ pyStr aidv ++
                    " updated successfully. Changes: " ++
                    String.intercalate ", " u)),
                  ("updated_action", tF)]), wb tF)

def update_action : ToolFn := fun params db =>
  match bindParams
      ["rule_id", "action_id", "action_type", "parameters", "description"]
      ["rule_id"] params with
  | .error e => (.error e, db)
  | .ok kvs =>
      let rule_id := (dictLookup kvs "rule_id").getD .vnull
      let action_id := (dictLookup kvs "action_id").getD .vnull
      let action_type := (dictLookup kvs "action_type").getD .vnull
      let parameters := (dictLookup kvs "parameters").getD .vnull
      let description := (dictLookup kvs "description").getD .vnull
      match findRuleScan rule_id db.rules with
      | .error e => (.error e, db)
      | .ok none =>
          (.ok (errDict ("Rule with ID " ++ pyStr rule_id ++ " not found")), db)
      | .ok (some _) =>
          let ridS := match rule_id with | .vstr s => s | _ => ""
          let acts := match rule_id with
                      | .vstr s => assocGetD db.actions s
                      | _ => []
          if acts.isEmpty then
            (.ok (errDict ("No actions found for rule " ++ pyStr rule_id)), db)
          else
            if pyTruthy action_id then
              match findIdIdx action_id acts with
              | .error e => (.error e, db)
              | .ok none =>
                  (.ok (errDict ("Action with ID " ++ pyStr action_id ++
                    " not found for rule " ++ pyStr rule_id)), db)
              | .ok (some i) =>
                  updateActCore db rule_id ridS acts i action_type
                    parameters description
            else
              updateActCore db rule_id ridS acts 0 action_type
                parameters description

/-! ## The creation tools

`datetime.fromisoformat` is modelled by a shape check on the
`YYYY-MM-DDTHH:MM:SS` prefix, with chronological comparison as lexicographic
comparison of that prefix; the detail text of `ValueError` messages is
elided.  `uuid.uuid4()` draws from the store's counter. -/

def isDigitC (c : Char) : Bool := (digitVal c).isSome

/-- Shape check standing in for `datetime.fromisoformat` acceptance. -/
def isoOk (s : String) : Bool :=
  match s.data with
  | y1 :: y2 :: y3 :: y4 :: '-' :: m1 :: m2 :: '-' :: d1 :: d2 :: 'T' ::
      h1 :: h2 :: ':' :: n1 :: n2 :: ':' :: s1 :: s2 :: _ =>
      isDigitC y1 && isDigitC y2 && isDigitC y3 && isDigitC y4 &&
      isDigitC m1 && isDigitC m2 && isDigitC d1 && isDigitC d2 &&
      isDigitC h1 && isDigitC h2 && isDigitC n1 && isDigitC n2 &&
      isDigitC s1 && isDigitC s2
  | _ => false

def isoCanon (s : String) : String := String.mk (s.data.take 19)

/-- The shared rule-header validation (empty name, datetime window); `.ok
none` means the checks passed, `.ok (some d)` an early error-dictionary
return, `.error` a raised exception. -/
def ruleHeaderCheck (namev stv etv : Value) : Except String (Option Value) :=
  if !(pyTruthy namev) then .ok (some (errDict "Rule name cannot be empty"))
  else
    match namev with
    | .vstr s =>
        if pyStrip s == "" then .ok (some (errDict "Rule name cannot be empty"))
        else
          if pyTruthy stv && pyTruthy etv then
            match stv, etv with
            | .vstr ss, .vstr es =>
                if !(isoOk ss) || !(isoOk es) then
                  .ok (some (errDict "Invalid datetime format"))
                else if !(isoCanon ss < isoCanon es) then
                  .ok (some (errDict "start_time must be before end_time"))
                else .ok none
            | _, _ => .error "AttributeError: replace"
          else .ok none
    | _ => .error "AttributeError: strip"

/-- Validation outcome: raised exception, early error dictionary, or pass. -/
inductive Chk (α : Type) where
  | raise (e : String)
  | fail (msg : String)
  | pass (a : α)

/-- Frequency defaults plus condition-parameter validation shared by
`create_rule_condition` and `create_rule_condition_action`. -/
def condParamsValidate (condition_type cp0 : Value) : Chk Value :=
  let cp1 := if vHasKey cp0 "minFrequencyMHz" then cp0
             else vAssign cp0 "minFrequencyMHz" (.vint 10)
  let cp2 := if vHasKey cp1 "maxFrequencyMHz" then cp1
             else vAssign cp1 "maxFrequencyMHz" (.vint 6000)
  match cmpNum (vGetD cp2 "minFrequencyMHz" .vnull) with
  | .error e => .raise e
  | .ok mn =>
      if !((10 : Int) ≤ mn && mn ≤ 6000) then
        .fail "Frequencies must be between 10 and 6000 MHz"
      else
        match cmpNum (vGetD cp2 "maxFrequencyMHz" .vnull) with
        | .error e => .raise e
        | .ok mx =>
            if !((10 : Int) ≤ mx && mx ≤ 6000) then
              .fail "Frequencies must be between 10 and 6000 MHz"
            else if mn ≥ mx then
              .fail "minFrequencyMHz must be less than maxFrequencyMHz"
            else
              if scalarEq condition_type (.vstr "signalDetection") then
                if !(vHasKey cp2 "signalType") then
                  .fail "Missing required condition parameter: signalType"
                else if !(isStrIn (vGetD cp2 "signalType" .vnull)
                    validSignalTypes) then
                  .fail "Invalid signalType. Must be one of the supported signal types"
                else .pass cp2
              else
                if !(vHasKey cp2 "threshold_dBm") then
                  .fail "Missing required condition parameter: threshold_dBm"
                else
                  match cmpNum (vGetD cp2 "threshold_dBm" .vnull) with
                  | .error e => .raise e
                  | .ok th =>
                      if !((-150 : Int) ≤ th && th ≤ 150) then
                        .fail "threshold_dBm must be between -150 and 150"
                      else .pass cp2

/-- Action-parameter validation shared by `create_rule_action` and
`create_rule_condition_action`. -/
def actParamsValidate (action_type ap : Value) : Chk Unit :=
  if scalarEq action_type (.vstr "frequencyScanRequest") then
    if !(vHasKey ap "sensorIds") then
      .fail "frequencyScanRequest requires sensorIds parameter"
    else
      match vGetD ap "sensorIds" .vnull with
      | .vlist xs =>
          if xs.isEmpty then .fail "sensorIds must be a non-empty list"
          else .pass ()
      | _ => .fail "sensorIds must be a non-empty list"
  else if scalarEq action_type (.vstr "geolocationRequest") then
    if !(vHasKey ap "algorithm") then
      .fail "Missing required action parameter: algorithm"
    else if !(vHasKey ap "sensorIds") then
      .fail "Missing required action parameter: sensorIds"
    else if !(isStrIn (vGetD ap "algorithm" .vnull) ["TDOA", "PDOA"]) then
      .fail "Invalid algorithm. Must be one of: TDOA, PDOA"
    else
      match vGetD ap "sensorIds" .vnull with
      | .vlist xs =>
          if xs.length < 2 then
            .fail "geolocationRequest requires at least 2 sensors"
          else .pass ()
      | _ => .fail "geolocationRequest requires at least 2 sensors"
  else
    if !(vHasKey ap "message") then
      .fail "userNotification requires message parameter"
    else
      match vGetD ap "message" .vnull with
      | .vstr m =>
          if pyStrip m == "" then .fail "Notification message cannot be empty"
          else .pass ()
      | _ => .raise "AttributeError: strip"

/-- Assemble the new-rule dictionary shared by all creation tools. -/
def buildRuleDict (db : DB) (rid : String) (namev descv env maxv stv etv :
    Value) : Value :=
  let base : Value := .vdict [("id", .vstr rid), ("name", namev),
    ("description", descv), ("isEnabled", env),
    ("createdAt", .vstr (db.nowIso ++ "Z")),
    ("updatedAt", .vstr (db.nowIso ++ "Z"))]
  let b1 := match maxv with
            | .vnull => base
            | v => vAssign (vAssign base "maxExecutions" v)
                "executionsRemaining" v
  let b2 := if pyTruthy stv then vAssign b1 "startTime" stv else b1
  if pyTruthy etv then vAssign b2 "endTime" etv else b2

def create_automation_rule : ToolFn := fun params db =>
  match bindParams
      ["name", "description", "is_enabled", "max_executions", "start_time",
       "end_time"] ["name", "description"] params with
  | .error e => (.error e, db)
  | .ok kvs =>
      let namev := (dictLookup kvs "name").getD .vnull
      let descv := (dictLookup kvs "description").getD .vnull
      let env := (dictLookup kvs "is_enabled").getD (.vbool false)
      let maxv := (dictLookup kvs "max_executions").getD .vnull
      let stv := (dictLookup kvs "start_time").getD .vnull
      let etv := (dictLookup kvs "end_time").getD .vnull
      match ruleHeaderCheck namev stv etv with
      | .error e => (.error e, db)
      | .ok (some ed) => (.ok ed, db)
      | .ok none =>
          let rid := "uuid-" ++ toString db.uuidCounter
          let newRule := buildRuleDict db rid namev descv env maxv stv etv
          (.ok newRule,
           { db with rules := db.rules ++ [newRule],
                     uuidCounter := db.uuidCounter + 1 })

def create_rule_condition : ToolFn := fun params db =>
  match bindParams
      ["name", "description", "is_enabled", "max_executions", "start_time",
       "end_time", "condition_type", "condition_parameters",
       "condition_description"] ["name", "description"] params with
  | .error e => (.error e, db)
  | .ok kvs =>
      let namev := (dictLookup kvs "name").getD .vnull
      let descv := (dictLookup kvs "description").getD .vnull
      let env := (dictLookup kvs "is_enabled").getD (.vbool false)
      let maxv := (dictLookup kvs "max_executions").getD .vnull
      let stv := (dictLookup kvs "start_time").getD .vnull
      let etv := (dictLookup kvs "end_time").getD .vnull
      let ct := (dictLookup kvs "condition_type").getD .vnull
      let cp := (dictLookup kvs "condition_parameters").getD .vnull
      let cdesc := (dictLookup kvs "condition_description").getD .vnull
      match ruleHeaderCheck namev stv etv with
      | .error e => (.error e, db)
      | .ok (some ed) => (.ok ed, db)
      | .ok none =>
          if !(pyTruthy ct) then
            (.ok (errDict "condition_type is required (signalDetection or spectralEnergy)"), db)
          else if !(isStrIn ct ["signalDetection", "spectralEnergy"]) then
            (.ok (errDict "Invalid condition_type. Must be one of: signalDetection, spectralEnergy"), db)
          else if !(pyTruthy cp) then
            (.ok (errDict "condition_parameters is required"), db)
          else
            match condParamsValidate ct cp with
            | .raise e => (.error e, db)
            | .fail msg => (.ok (errDict msg), db)
            | .pass cp' =>
                let rid := "uuid-" ++ toString db.uuidCounter
                let cid := "uuid-" ++ toString (db.uuidCounter + 1)
                let newRule := buildRuleDict db rid namev descv env maxv stv etv
                let newCond : Value := .vdict [("id", .vstr cid),
                  ("rule_id", .vstr rid), ("conditionType", ct),
                  ("parameters", cp'), ("description", cdesc),
                  ("isSatisfied", .vbool false),
                  ("createdAt", .vint db.nowTs), ("updatedAt", .vint db.nowTs)]
                (.ok (.vdict [("success", .vbool true), ("rule", newRule),
                  ("rule_id", .vstr rid), ("rule_name", namev),
                  ("condition", newCond), ("condition_id", .vstr cid),
                  ("condition_type", ct),
                  ("message", .vstr ("Successfully created rule " ++
                    pyStr namev ++ " (ID: " ++ rid ++ ") with " ++ pyStr ct ++
                    " condition (ID: " ++ cid ++ ")"))]),
                 { db with rules := db.rules ++ [newRule],
                           conditions := assocAssign db.conditions rid
                             (assocGetD db.conditions rid ++ [newCond]),
                           uuidCounter := db.uuidCounter + 2 })

def create_rule_action : ToolFn := fun params db =>
  match bindParams
      ["name", "description", "is_enabled", "max_executions", "start_time",
       "end_time", "action_type", "action_parameters", "action_description"]
      ["name", "description"] params with
  | .error e => (.error e, db)
  | .ok kvs =>
      let namev := (dictLookup kvs "name").getD .vnull
      let descv := (dictLookup kvs "description").getD .vnull
      let env := (dictLookup kvs "is_enabled").getD (.vbool false)
      let maxv := (dictLookup kvs "max_executions").getD .vnull
      let stv := (dictLookup kvs "start_time").getD .vnull
      let etv := (dictLookup kvs "end_time").getD .vnull
      let at_ := (dictLookup kvs "action_type").getD .vnull
      let ap := (dictLookup kvs "action_parameters").getD .vnull
      let adesc := (dictLookup kvs "action_description").getD .vnull
      match ruleHeaderCheck namev stv etv with
      | .error e => (.error e, db)
      | .ok (some ed) => (.ok ed, db)
      | .ok none =>
          if !(pyTruthy at_) then
            (.ok (errDict "action_type is required (frequencyScanRequest, geolocationRequest, or userNotification)"), db)
          else if !(isStrIn at_
              ["frequencyScanRequest", "geolocationRequest",
               "userNotification"]) then
            (.ok (errDict "Invalid action_type. Must be one of: frequencyScanRequest, geolocationRequest, userNotification"), db)
          else if !(pyTruthy ap) then
            (.ok (errDict "action_parameters is required"), db)
          else
            match actParamsValidate at_ ap with
            | .raise e => (.error e, db)
            | .fail msg => (.ok (errDict msg), db)
            | .pass _ =>
                let rid := "uuid-" ++ toString db.uuidCounter
                let aid := "uuid-" ++ toString (db.uuidCounter + 1)
                let newRule := buildRuleDict db rid namev descv env maxv stv etv
                let newAct : Value := .vdict [("id", .vstr aid),
                  ("rule_id", .vstr rid), ("actionType", at_),
                  ("parameters", ap), ("description", adesc),
                  ("createdAt", .vint db.nowTs), ("updatedAt", .vint db.nowTs)]
                (.ok (.vdict [("success", .vbool true), ("rule", newRule),
                  ("rule_id", .vstr rid), ("rule_name", namev),
                  ("action", newAct), ("action_id", .vstr aid),
                  ("action_type", at_),
                  ("message", .vstr ("Successfully created rule " ++
                    pyStr namev ++ " (ID: " ++ rid ++ ") with " ++ pyStr at_ ++
                    " action (ID: " ++ aid ++ ")"))]),
                 { db with rules := db.rules ++ [newRule],
                           actions := assocAssign db.actions rid
                             (assocGetD db.actions rid ++ [newAct]),
                           uuidCounter := db.uuidCounter + 2 })

def create_rule_condition_action : ToolFn := fun params db =>
  match bindParams
      ["name", "description", "is_enabled", "max_executions", "start_time",
       "end_time", "condition_type", "condition_parameters",
       "condition_description", "action_type", "action_parameters",
       "action_description"] ["name", "description"] params with
  | .error e => (.error e, db)
  | .ok kvs =>
      let namev := (dictLookup kvs "name").getD .vnull
      let descv := (dictLookup kvs "description").getD .vnull
      let env := (dictLookup kvs "is_enabled").getD (.vbool false)
      let maxv := (dictLookup kvs "max_executions").getD .vnull
      let stv := (dictLookup kvs "start_time").getD .vnull
      let etv := (dictLookup kvs "end_time").getD .vnull
      let ct := (dictLookup kvs "condition_type").getD .vnull
      let cp0 := (dictLookup kvs "condition_parameters").getD .vnull
      let cdesc := (dictLookup kvs "condition_description").getD .vnull
      let at_ := (dictLookup kvs "action_type").getD .vnull
      let ap := (dictLookup kvs "action_parameters").getD .vnull
      let adesc := (dictLookup kvs "action_description").getD .vnull
      match ruleHeaderCheck namev stv etv with
      | .error e => (.error e, db)
      | .ok (some ed) => (.ok ed, db)
      | .ok none =>
          if !(pyTruthy ct) then
            (.ok (errDict "condition_type is required (signalDetection or spectralEnergy)"), db)
          else if !(isStrIn ct ["signalDetection", "spectralEnergy"]) then
            (.ok (errDict "Invalid condition_type. Must be one of: signalDetection, spectralEnergy"), db)
          else
            let cp := if pyTruthy cp0 then cp0 else .vdict []
            match condParamsValidate ct cp with
            | .raise e => (.error e, db)
            | .fail msg => (.ok (errDict msg), db)
            | .pass cp' =>
                if !(pyTruthy at_) then
                  (.ok (errDict "action_type is required (frequencyScanRequest, geolocationRequest, or userNotification)"), db)
                else if !(isStrIn at_
                    ["frequencyScanRequest", "geolocationRequest",
                     "userNotification"]) then
                  (.ok (errDict "Invalid action_type. Must be one of: frequencyScanRequest, geolocationRequest, userNotification"), db)
                else if !(pyTruthy ap) then
                  (.ok (errDict "action_parameters is required"), db)
                else
                  match actParamsValidate at_ ap with
                  | .raise e => (.error e, db)
                  | .fail msg => (.ok (errDict msg), db)
                  | .pass _ =>
                      let rid := "uuid-" ++ toString db.uuidCounter
                      let cid := "uuid-" ++ toString (db.uuidCounter + 1)
                      let aid := "uuid-" ++ toString (db.uuidCounter + 2)
                      let newRule := buildRuleDict db rid namev descv env maxv
                        stv etv
                      let newCond : Value := .vdict [("id", .vstr cid),
                        ("rule_id", .vstr rid), ("conditionType", ct),
                        ("parameters", cp'), ("description", cdesc),
                        ("isSatisfied", .vbool false),
                        ("createdAt", .vint db.nowTs),
                        ("updatedAt", .vint db.nowTs)]
                      let newAct : Value := .vdict [("id", .vstr aid),
                        ("rule_id", .vstr rid), ("actionType", at_),
                        ("parameters", ap), ("description", adesc),
                        ("createdAt", .vint db.nowTs),
                        ("updatedAt", .vint db.nowTs)]
                      (.ok (.vdict [("success", .vbool true),
                        ("rule", newRule), ("rule_id", .vstr rid),
                        ("rule_name", namev), ("condition", newCond),
                        ("condition_id", .vstr cid), ("condition_type", ct),
                        ("action", newAct), ("action_id", .vstr aid),
                        ("action_type", at_),
                        ("message", .vstr ("Successfully created rule " ++
                          pyStr namev ++ " (ID: " ++ rid ++ ") with " ++
                          pyStr ct ++ " condition (ID: " ++ cid ++ ") and " ++
                          pyStr at_ ++ " action (ID: " ++ aid ++ ")"))]),
                       { db with rules := db.rules ++ [newRule],
                                 conditions := assocAssign db.conditions rid
                                   (assocGetD db.conditions rid ++ [newCond]),
                                 actions := assocAssign db.actions rid
                                   (assocGetD db.actions rid ++ [newAct]),
                                 uuidCounter := db.uuidCounter + 3 })

/-! ## Tool registries and dispatchers (spec 4.1, 4.2) -/

def AVAILABLE_UPDATE_TOOLS : List (String × ToolFn) :=
  [("list_automation_rules", list_automation_rules),
   ("activate_automation_rule", activate_automation_rule),
   ("deactivate_automation_rule", deactivate_automation_rule),
   ("update_condition", update_condition),
   ("update_action", update_action)]

def AVAILABLE_CREATE_TOOLS : List (String × ToolFn) :=
  [("list_automation_rules", list_automation_rules),
   ("create_automation_rule", create_automation_rule),
   ("create_rule_condition", create_rule_condition),
   ("create_rule_action", create_rule_action),
   ("create_rule_condition_action", create_rule_condition_action)]

def AVAILABLE_INFO_TOOLS : List (String × ToolFn) :=
  [("list_automation_rules", list_automation_rules),
   ("get_automation_rule", get_automation_rule),
   ("list_conditions_for_rule", list_conditions_for_rule),
   ("list_actions_for_rule", list_actions_for_rule)]

def lookupTool (reg : List (String × ToolFn)) (name : String) :
    Option ToolFn :=
  match reg with
  | [] => none
  | (n, f) :: tl => if n == name then some f else lookupTool tl name

/-- `execute_create_tool`: registry check, invoke, catch-all turning a raised
exception into `{error: "Tool execution error: ..."}`. -/
def execute_create_tool (tool_name parameters : Value) (db : DB) :
    Value × DB :=
  match tool_name with
  | .vstr s =>
      match lookupTool AVAILABLE_CREATE_TOOLS s with
      | none => (errDict ("Tool " ++ s ++ " not found"), db)
      | some f =>
          match f parameters db with
          | (.ok v, db') => (v, db')
          | (.error e, db') => (errDict ("Tool execution error: " ++ e), db')
  | v => (errDict ("Tool " ++ pyStr v ++ " not found"), db)

/-- `execute_update_tool` (the module-level dispatcher). -/
def execute_update_tool (tool_name parameters : Value) (db : DB) :
    Value × DB :=
  match tool_name with
  | .vstr s =>
      match lookupTool AVAILABLE_UPDATE_TOOLS s with
      | none => (errDict ("Tool " ++ s ++ " not found"), db)
      | some f =>
          match f parameters db with
          | (.ok v, db') => (v, db')
          | (.error e, db') => (errDict ("Tool execution error: " ++ e), db')
  | v => (errDict ("Tool " ++ pyStr v ++ " not found"), db)

/-- `execute_info_tool`: same shape, but the caught exception is rendered
without the prefix. -/
def execute_info_tool (tool_name parameters : Value) (db : DB) : Value × DB :=
  match tool_name with
  | .vstr s =>
      match lookupTool AVAILABLE_INFO_TOOLS s with
      | none => (errDict ("Tool " ++ s ++ " not found"), db)
      | some f =>
          match f parameters db with
          | (.ok v, db') => (v, db')
          | (.error e, db') => (errDict e, db')
  | v => (errDict ("Tool " ++ pyStr v ++ " not found"), db)

/-! ## Agent loop states and nodes (spec 4.4)

Each LangGraph node becomes a function of the loop state plus, for planning
nodes, the decision service's raw reply text.  A planning node returns
`none` when the Python node would raise an uncaught exception (`.get` on a
non-dictionary parse result).  Prompt construction, printing and the
`messages`/`original_intent_state` bookkeeping fields are display-only and
not modelled. -/

/-- A Tool Call Record appended to `tools_called`. -/
structure CallRec where
  tool : Value
  parameters : Value
  result : Option Value
  result_summary : String
  has_error : Option Bool

structure UpdateAgentState where
  user_query : String
  iteration_count : Nat
  max_iterations : Nat
  tools_called : List CallRec
  updated_entities : Value
  next_action : Value
  selected_tool : Value
  tool_parameters : Value
  has_completed_update : Value
  final_response : String
  reasoning : Value
  validation_errors : List Value

structure CreateAgentState where
  user_query : String
  iteration_count : Nat
  max_iterations : Nat
  tools_called : List CallRec
  created_entities : Value
  next_action : Value
  selected_tool : Value
  tool_parameters : Value
  has_completed_creation : Value
  final_response : String
  reasoning : Value
  validation_errors : List Value

structure InfoAgentState where
  user_query : String
  iteration_count : Nat
  max_iterations : Nat
  tools_called : List CallRec
  gathered_data : Value
  next_action : Value
  selected_tool : Value
  tool_parameters : Value
  has_sufficient_data : Value
  final_response : String
  reasoning : Value

/-- The update planner's completion predicate over the Entity Accumulator
(the `condition_created or action_created or activation_done or
deactivation_done` test). -/
def updateAccumDone (e : Value) : Bool :=
  0 < lenV (vGetD e "conditions" (.vlist [])) ||
  0 < lenV (vGetD e "actions" (.vlist [])) ||
  0 < lenV (vGetD e "activations" (.vlist [])) ||
  0 < lenV (vGetD e "deactivations" (.vlist []))

def updDefaultResponse : Value :=
  .vdict [("next_action", .vstr "respond"),
    ("reasoning", .vstr "Parse error - defaulting to respond"),
    ("has_completed_update", .vbool true), ("selected_tool", .vnull),
    ("tool_parameters", .vdict [])]

/-- `plan_update_action_node`. -/
def plan_update_action_node (state : UpdateAgentState)
    (response_content : String) : Option UpdateAgentState :=
  if state.max_iterations ≤ state.iteration_count then
    some { state with
      next_action := .vstr "respond",
      has_completed_update := .vbool true,
      reasoning := .vstr "Maximum iterations reached" }
  else
    let e := state.updated_entities
    let rule_retrieved_done := 0 < lenV (vGetD e "retrieved_rules" (.vlist []))
    let has_rule_id := rule_retrieved_done && vHasKey e "target_rule_id"
    if rule_retrieved_done && !has_rule_id then
      some { state with
        next_action := .vstr "respond",
        has_completed_update := .vbool true,
        reasoning := .vstr "Unable to find the rule to update the information.",
        iteration_count := state.iteration_count + 1 }
    else if updateAccumDone e then
      some { state with
        next_action := .vstr "respond",
        has_completed_update := .vbool true,
        reasoning := .vstr "Updates are complete",
        iteration_count := state.iteration_count + 1 }
    else
      match safe_parse_json response_content (some updDefaultResponse) with
      | (_, false) =>
          some { state with
            next_action := .vstr "respond",
            has_completed_update := .vbool true,
            reasoning := .vstr "Parse error - could not extract valid JSON from response",
            iteration_count := state.iteration_count + 1 }
      | (result, true) =>
          match result with
          | .vdict _ =>
              let st0 := vGetD result "selected_tool" (.vstr "")
              some { state with
                next_action := vGetD result "next_action" (.vstr "respond"),
                reasoning := vGetD result "reasoning" (.vstr ""),
                has_completed_update :=
                  vGetD result "has_completed_update" (.vbool false),
                selected_tool := if pyTruthy st0 then st0 else .vstr "",
                tool_parameters := vGetD result "tool_parameters" (.vdict []),
                iteration_count := state.iteration_count + 1 }
          | _ => none

/-- Scan the listed rules for one whose lowercased name occurs in the query,
recording its id and name (the `for rule in result` loop of
`execute_update_tool_node`). -/
def findTargetRule (queryLower : String) (entities : Value) :
    List Value → Value
  | [] => entities
  | r :: tl =>
      match r.lookup "name" with
      | some (.vstr n) =>
          if strContains queryLower (lowerStr n) then
            vAssign (vAssign entities "target_rule_id"
              ((r.lookup "id").getD .vnull)) "target_rule_name" (.vstr n)
          else findTargetRule queryLower entities tl
      | _ => findTargetRule queryLower entities tl

/-- Append to the list stored at `key`, creating it when absent (the
`if key not in entities: entities[key] = []` / `.append(result)` pattern). -/
def appendToListKey (entities : Value) (key : String) (item : Value) : Value :=
  match entities.lookup key with
  | some (.vlist xs) => vAssign entities key (.vlist (xs ++ [item]))
  | some _ => entities
  | none => vAssign entities key (.vlist [item])

/-- The Entity Accumulator merge of `execute_update_tool_node` (the
`if not has_error:` block), factored out of the node. -/
def mergeUpdateEntities (user_query : String)
    (entities tool_name result : Value) : Value :=
  if scalarEq tool_name (.vstr "list_automation_rules") then
    let e1 := vAssign entities "retrieved_rules" result
    match result with
    | .vlist rules => findTargetRule (lowerStr user_query) e1 rules
    | _ => e1
  else if scalarEq tool_name (.vstr "activate_automation_rule") then
    appendToListKey entities "activations" result
  else if scalarEq tool_name (.vstr "deactivate_automation_rule") then
    appendToListKey entities "deactivations" result
  else if scalarEq tool_name (.vstr "update_condition") then
    appendToListKey entities "conditions" result
  else if scalarEq tool_name (.vstr "update_action") then
    appendToListKey entities "actions" result
  else entities

def noToolRec : CallRec :=
  { tool := .vstr "none", parameters := .vdict [], result := none,
    result_summary := "No tool selected", has_error := none }

/-- `execute_update_tool_node`. -/
def execute_update_tool_node (state : UpdateAgentState) (db : DB) :
    UpdateAgentState × DB :=
  let tool_name := state.selected_tool
  if !(pyTruthy tool_name) then
    ({ state with tools_called := state.tools_called ++ [noToolRec] }, db)
  else
    let rdb := execute_update_tool tool_name state.tool_parameters db
    let result := rdb.1
    let has_error := hasErrorKey result
    let result_summary :=
      if has_error then pyStr (vGetD result "error" (.vstr "Error occurred"))
      else if scalarEq tool_name (.vstr "list_automation_rules") then
        "Retrieved " ++ toString (lenV result) ++ " rules"
      else if scalarEq tool_name (.vstr "activate_automation_rule") then
        "Activated rule " ++ pyStr (vGetD result "rule_name" (.vstr "unknown"))
          ++ " (ID: " ++ pyStr (vGetD result "rule_id" .vnull) ++ ")"
      else if scalarEq tool_name (.vstr "deactivate_automation_rule") then
        "Deactivated rule " ++
          pyStr (vGetD result "rule_name" (.vstr "unknown")) ++ " (ID: " ++
          pyStr (vGetD result "rule_id" .vnull) ++ ")"
      else if scalarEq tool_name (.vstr "update_condition") then
        "Created " ++ pyStr (vGetD result "conditionType" .vnull) ++
          " condition with ID " ++ pyStr (vGetD result "condition_id" .vnull)
      else if scalarEq tool_name (.vstr "update_action") then
        "Created " ++ pyStr (vGetD result "actionType" .vnull) ++
          " action with ID " ++ pyStr (vGetD result "action_id" .vnull)
      else "Successfully executed"
    let updated_entities :=
      if has_error then state.updated_entities
      else mergeUpdateEntities state.user_query state.updated_entities
        tool_name result
    let validation_errors :=
      if has_error then
        state.validation_errors ++ [(result.lookup "error").getD .vnull]
      else state.validation_errors
    ({ state with
       updated_entities := updated_entities,
       validation_errors := validation_errors,
       tools_called := state.tools_called ++
         [{ tool := tool_name, parameters := state.tool_parameters,
            result := some result, result_summary := result_summary,
            has_error := some has_error }] }, rdb.2)

def createDefaultResponse : Value :=
  .vdict [("next_action", .vstr "respond"),
    ("reasoning", .vstr "Parse error - defaulting to respond"),
    ("has_completed_creation", .vbool true), ("selected_tool", .vnull),
    ("tool_parameters", .vdict [])]

/-- `plan_creation_action_node`. -/
def plan_creation_action_node (state : CreateAgentState)
    (response_content : String) : Option CreateAgentState :=
  if state.max_iterations ≤ state.iteration_count then
    some { state with
      next_action := .vstr "respond",
      has_completed_creation := .vbool true,
      reasoning := .vstr "Maximum iterations reached" }
  else
    let e := state.created_entities
    let rule_already_created := 0 < lenV (vGetD e "rules" (.vlist []))
    let condition_created := 0 < lenV (vGetD e "conditions" (.vlist []))
    let action_created := 0 < lenV (vGetD e "actions" (.vlist []))
    if rule_already_created && (condition_created || action_created) then
      some { state with
        next_action := .vstr "respond",
        has_completed_creation := .vbool true,
        reasoning := .vstr "Rule with condition or action has been created successfully" }
    else if rule_already_created then
      some { state with
        next_action := .vstr "respond",
        has_completed_creation := .vbool true,
        reasoning := .vstr "Rule created. No sufficient information for conditions or actions." }
    else
      match safe_parse_json response_content (some createDefaultResponse) with
      | (_, false) =>
          some { state with
            next_action := .vstr "respond",
            has_completed_creation := .vbool true,
            reasoning := .vstr "Parse error - could not extract valid JSON from response",
            iteration_count := state.iteration_count + 1 }
      | (result, true) =>
          match result with
          | .vdict _ =>
              let st0 := vGetD result "selected_tool" (.vstr "")
              some { state with
                next_action := vGetD result "next_action" (.vstr "respond"),
                reasoning := vGetD result "reasoning" (.vstr ""),
                has_completed_creation :=
                  vGetD result "has_completed_creation" (.vbool false),
                selected_tool := if pyTruthy st0 then st0 else .vstr "",
                tool_parameters := vGetD result "tool_parameters" (.vdict []),
                iteration_count := state.iteration_count + 1 }
          | _ => none

/-- The Entity Accumulator merge of `execute_creation_tool_node`. -/
def mergeCreationEntities (entities tool_name result : Value) : Value :=
  if scalarEq tool_name (.vstr "list_automation_rules") then
    vAssign entities "retrieved_rules" result
  else if scalarEq tool_name (.vstr "create_automation_rule") then
    vAssign (appendToListKey entities "rules" result) "last_rule_id"
      (vGetD result "id" .vnull)
  else if scalarEq tool_name (.vstr "create_rule_condition") then
    let e1 := vAssign (appendToListKey entities "rules"
      (vGetD result "rule" .vnull)) "last_rule_id"
      (vGetD result "rule_id" .vnull)
    vAssign (appendToListKey e1 "conditions" (vGetD result "condition" .vnull))
      "last_condition_id" (vGetD result "condition_id" .vnull)
  else if scalarEq tool_name (.vstr "create_rule_action") then
    let e1 := vAssign (appendToListKey entities "rules"
      (vGetD result "rule" .vnull)) "last_rule_id"
      (vGetD result "rule_id" .vnull)
    vAssign (appendToListKey e1 "actions" (vGetD result "action" .vnull))
      "last_action_id" (vGetD result "action_id" .vnull)
  else if scalarEq tool_name (.vstr "create_rule_condition_action") then
    let e1 := vAssign (appendToListKey entities "rules"
      (vGetD result "rule" .vnull)) "last_rule_id"
      (vGetD result "rule_id" .vnull)
    let e2 := vAssign (appendToListKey e1 "conditions"
      (vGetD result "condition" .vnull)) "last_condition_id"
      (vGetD result "condition_id" .vnull)
    vAssign (appendToListKey e2 "actions" (vGetD result "action" .vnull))
      "last_action_id" (vGetD result "action_id" .vnull)
  else entities

/-- `execute_creation_tool_node`. -/
def execute_creation_tool_node (state : CreateAgentState) (db : DB) :
    CreateAgentState × DB :=
  let tool_name := state.selected_tool
  if !(pyTruthy tool_name) then
    ({ state with tools_called := state.tools_called ++ [noToolRec] }, db)
  else
    let rdb := execute_create_tool tool_name state.tool_parameters db
    let result := rdb.1
    let has_error := hasErrorKey result
    let result_summary :=
      if has_error then pyStr (vGetD result "error" (.vstr "Error occurred"))
      else if scalarEq tool_name (.vstr "list_automation_rules") then
        "Retrieved " ++ toString (lenV result) ++ " rules"
      else "Successfully created"
    let created_entities :=
      if has_error then state.created_entities
      else mergeCreationEntities state.created_entities tool_name result
    let validation_errors :=
      if has_error then
        state.validation_errors ++ [(result.lookup "error").getD .vnull]
      else state.validation_errors
    ({ state with
       created_entities := created_entities,
       validation_errors := validation_errors,
       tools_called := state.tools_called ++
         [{ tool := tool_name, parameters := state.tool_parameters,
            result := some result, result_summary := result_summary,
            has_error := some has_error }] }, rdb.2)

/-- `plan_next_action_node` (Info loop): note the bare `json.loads` of the
stripped reply, with only `json.JSONDecodeError` handled. -/
def plan_next_action_node (state : InfoAgentState)
    (response_content : String) : Option InfoAgentState :=
  if state.max_iterations ≤ state.iteration_count then
    some { state with
      next_action := .vstr "respond",
      has_sufficient_data := .vbool true,
      reasoning := .vstr "Maximum iterations reached" }
  else
    match json_loads (pyStrip response_content) with
    | some result =>
        match result with
        | .vdict _ =>
            some { state with
              next_action := vGetD result "next_action" (.vstr "respond"),
              reasoning := vGetD result "reasoning" (.vstr ""),
              has_sufficient_data :=
                vGetD result "has_sufficient_data" (.vbool false),
              selected_tool := vGetD result "selected_tool" (.vstr ""),
              tool_parameters := vGetD result "tool_parameters" (.vdict []),
              iteration_count := state.iteration_count + 1 }
        | _ => none
    | none =>
        some { state with
          next_action := .vstr "respond",
          has_sufficient_data := .vbool true,
          reasoning := .vstr "Parse error",
          iteration_count := state.iteration_count + 1 }

/-- `parameters.get("rule_id", "unknown")` as a dictionary key; the node
raises when `parameters` is not a dictionary. -/
def ruleIdKey (parameters : Value) : Option String :=
  match parameters with
  | .vdict kvs =>
      some (match (dictLookup kvs "rule_id").getD (.vstr "unknown") with
            | .vstr s => s
            | v => pyStr v)
  | _ => none

/-- Store a per-rule result under the given section of `gathered_data`. -/
def storeNested (gathered : Value) (sect rid : String) (result : Value) :
    Value :=
  vAssign gathered sect
    (vAssign (vGetD gathered sect (.vdict [])) rid result)

/-- `execute_info_tool_node`; `none` models the uncaught `.get` on a
non-dictionary parameter bag.  Results are stored whether or not they carry
an error key. -/
def execute_info_tool_node (state : InfoAgentState) (db : DB) :
    Option (InfoAgentState × DB) :=
  let tool_name := state.selected_tool
  if !(pyTruthy tool_name) then
    some ({ state with tools_called := state.tools_called ++ [noToolRec] }, db)
  else
    let rdb := execute_info_tool tool_name state.tool_parameters db
    let result := rdb.1
    let result_summary :=
      if hasErrorKey result then pyStr (vGetD result "error" .vnull)
      else "Retrieved " ++
        toString (match result with | .vlist xs => xs.length | _ => 1) ++
        " item(s)"
    let gathered? :=
      if scalarEq tool_name (.vstr "list_automation_rules") then
        some (vAssign state.gathered_data "all_rules" result)
      else if scalarEq tool_name (.vstr "get_automation_rule") then
        (ruleIdKey state.tool_parameters).map
          (fun rid => storeNested state.gathered_data "rules" rid result)
      else if scalarEq tool_name (.vstr "list_conditions_for_rule") then
        (ruleIdKey state.tool_parameters).map
          (fun rid => storeNested state.gathered_data "conditions" rid result)
      else if scalarEq tool_name (.vstr "list_actions_for_rule") then
        (ruleIdKey state.tool_parameters).map
          (fun rid => storeNested state.gathered_data "actions" rid result)
      else some state.gathered_data
    gathered?.map (fun gathered' =>
      ({ state with
         gathered_data := gathered',
         tools_called := state.tools_called ++
           [{ tool := tool_name, parameters := state.tool_parameters,
              result := some result, result_summary := result_summary,
              has_error := none }] }, rdb.2))

/-! ## Workflow wiring (the compiled StateGraphs)

`create_update_agent_workflow` and its two siblings wire
`plan_action` with a conditional edge (to `execute_tool` iff the planned
`next_action == "call_tool"`, else to `generate_response`) and an
unconditional edge from `execute_tool` back to `plan_action`; the response
node ends the run.  The response node only renders text through the decision
service, so it is the terminal `don` node here; `crashed` is the run dying on
an uncaught exception. -/

/-- `should_call_update_tool_or_respond` / `should_call_tool_or_respond` /
`should_call_info_tool_or_respond`: all route on `next_action == "call_tool"`. -/
def routesToExecute (next_action : Value) : Bool :=
  scalarEq next_action (.vstr "call_tool")

inductive LoopNode where
  | plan
  | exec
  | don
  | crashed
deriving DecidableEq

structure UpdateConfig where
  node : LoopNode
  state : UpdateAgentState
  db : DB

structure CreateConfig where
  node : LoopNode
  state : CreateAgentState
  db : DB

structure InfoConfig where
  node : LoopNode
  state : InfoAgentState
  db : DB

/-- One scheduler step of the Update workflow; `reply` is the decision
service's text for a planning step and is ignored elsewhere. -/
def update_step (c : UpdateConfig) (reply : String) : UpdateConfig :=
  match c.node with
  | .plan =>
      match plan_update_action_node c.state reply with
      | none => { c with node := .crashed }
      | some s' =>
          { node := if routesToExecute s'.next_action then .exec else .don,
            state := s', db := c.db }
  | .exec =>
      let sd := execute_update_tool_node c.state c.db
      { node := .plan, state := sd.1, db := sd.2 }
  | .don => c
  | .crashed => c

def update_run : List String → UpdateConfig → UpdateConfig
  | [], c => c
  | r :: rs, c => update_run rs (update_step c r)

def create_step (c : CreateConfig) (reply : String) : CreateConfig :=
  match c.node with
  | .plan =>
      match plan_creation_action_node c.state reply with
      | none => { c with node := .crashed }
      | some s' =>
          { node := if routesToExecute s'.next_action then .exec else .don,
            state := s', db := c.db }
  | .exec =>
      let sd := execute_creation_tool_node c.state c.db
      { node := .plan, state := sd.1, db := sd.2 }
  | .don => c
  | .crashed => c

def create_run : List String → CreateConfig → CreateConfig
  | [], c => c
  | r :: rs, c => create_run rs (create_step c r)

def info_step (c : InfoConfig) (reply : String) : InfoConfig :=
  match c.node with
  | .plan =>
      match plan_next_action_node c.state reply with
      | none => { c with node := .crashed }
      | some s' =>
          { node := if routesToExecute s'.next_action then .exec else .don,
            state := s', db := c.db }
  | .exec =>
      match execute_info_tool_node c.state c.db with
      | none => { c with node := .crashed }
      | some sd => { node := .plan, state := sd.1, db := sd.2 }
  | .don => c
  | .crashed => c

def info_run : List String → InfoConfig → InfoConfig
  | [], c => c
  | r :: rs, c => info_run rs (info_step c r)

/-- The Update handler's initial state (`update_intent_handler`):
iteration 0 and ceiling 8. -/
def initialUpdateState (q : String) : UpdateAgentState :=
  { user_query := q, iteration_count := 0, max_iterations := 8,
    tools_called := [], updated_entities := .vdict [],
    next_action := .vstr "call_tool", selected_tool := .vstr "",
    tool_parameters := .vdict [], has_completed_update := .vbool false,
    final_response := "", reasoning := .vstr "", validation_errors := [] }

/-- The Create handler's initial state (`create_intent_handler`):
iteration 0 and ceiling 8. -/
def initialCreateState (q : String) : CreateAgentState :=
  { user_query := q, iteration_count := 0, max_iterations := 8,
    tools_called := [], created_entities := .vdict [],
    next_action := .vstr "call_tool", selected_tool := .vstr "",
    tool_parameters := .vdict [], has_completed_creation := .vbool false,
    final_response := "", reasoning := .vstr "", validation_errors := [] }

/-- The Info handler's initial state (`info_intent_handler`):
iteration 0 and ceiling 5. -/
def initialInfoState (q : String) : InfoAgentState :=
  { user_query := q, iteration_count := 0, max_iterations := 5,
    tools_called := [], gathered_data := .vdict [],
    next_action := .vstr "call_tool", selected_tool := .vstr "",
    tool_parameters := .vdict [], has_sufficient_data := .vbool false,
    final_response := "", reasoning := .vstr "" }

/-! ## Eligible tool subsets presented to the planners (spec 4.1)

The update planner filters its registry (`available_tools_filtered`);
forced-completion branches present no tools at all; the Create and Info
planners build their `tool_descriptions` from the whole registry on every
non-forced planning step. -/

def updateToolNames : List String := AVAILABLE_UPDATE_TOOLS.map Prod.fst

def createToolNames : List String := AVAILABLE_CREATE_TOOLS.map Prod.fst

def infoToolNames : List String := AVAILABLE_INFO_TOOLS.map Prod.fst

/-- The tool names whose descriptions reach the update planning prompt in
the given state. -/
def update_presented_tools (state : UpdateAgentState) : List String :=
  if state.max_iterations ≤ state.iteration_count then []
  else
    let e := state.updated_entities
    let rule_retrieved_done := 0 < lenV (vGetD e "retrieved_rules" (.vlist []))
    let has_rule_id := rule_retrieved_done && vHasKey e "target_rule_id"
    if rule_retrieved_done && !has_rule_id then []
    else if updateAccumDone e then []
    else if rule_retrieved_done then
      updateToolNames.filter (fun n => n != "list_automation_rules")
    else updateToolNames

/-- The tool names whose descriptions reach the create planning prompt. -/
def create_presented_tools (state : CreateAgentState) : List String :=
  if state.max_iterations ≤ state.iteration_count then []
  else
    let e := state.created_entities
    let rule_already_created := 0 < lenV (vGetD e "rules" (.vlist []))
    let condition_created := 0 < lenV (vGetD e "conditions" (.vlist []))
    let action_created := 0 < lenV (vGetD e "actions" (.vlist []))
    if rule_already_created && (condition_created || action_created) then []
    else if rule_already_created then []
    else createToolNames

/-- The tool names whose descriptions reach the info planning prompt: the
whole registry on every non-forced step. -/
def info_presented_tools (state : InfoAgentState) : List String :=
  if state.max_iterations ≤ state.iteration_count then []
  else infoToolNames

/-! ## General lemmas -/

theorem dictLookup_dictAssign_ne (kvs : List (String × Value)) (k k' : String)
    (x : Value) (h : k' ≠ k) :
    dictLookup (dictAssign kvs k x) k' = dictLookup kvs k' := by
  induction kvs with
  | nil => simp [dictAssign, dictLookup, Ne.symm h]
  | cons hd tl ih =>
      obtain ⟨k0, v0⟩ := hd
      by_cases hk : k0 = k
      · subst hk
        simp [dictAssign, dictLookup, Ne.symm h]
      · simp only [dictAssign, dictLookup]
        rw [if_neg (by simpa using hk)]
        simp only [dictLookup]
        by_cases hk' : k0 = k'
        · simp [hk']
        · simp [hk', ih]

theorem lookup_vAssign_ne (v : Value) (k k' : String) (x : Value)
    (h : k' ≠ k) : (vAssign v k x).lookup k' = v.lookup k' := by
  cases v <;> simp [vAssign, Value.lookup]
  exact dictLookup_dictAssign_ne _ _ _ _ h

theorem dictLookup_dictAssign_self (kvs : List (String × Value)) (k : String)
    (x : Value) : dictLookup (dictAssign kvs k x) k = some x := by
  induction kvs with
  | nil => simp [dictAssign, dictLookup]
  | cons hd tl ih =>
      obtain ⟨k0, v0⟩ := hd
      by_cases hk : k0 = k
      · subst hk
        simp [dictAssign, dictLookup]
      · simp only [dictAssign, dictLookup]
        rw [if_neg (by simpa using hk)]
        simp only [dictLookup]
        rw [if_neg (by simpa using hk), ih]

theorem lookup_vAssign_self (kvs : List (String × Value)) (k : String)
    (x : Value) : (vAssign (.vdict kvs) k x).lookup k = some x := by
  simp [vAssign, Value.lookup, dictLookup_dictAssign_self]

theorem assocGet_assocAssign_self (m : List (String × List Value))
    (k : String) (v : List Value) :
    assocGet (assocAssign m k v) k = some v := by
  induction m with
  | nil => simp [assocAssign, assocGet]
  | cons hd tl ih =>
      obtain ⟨k0, v0⟩ := hd
      by_cases hk : k0 = k
      · subst hk
        simp [assocAssign, assocGet]
      · simp only [assocAssign, assocGet]
        rw [if_neg (by simpa using hk)]
        simp only [assocGet]
        rw [if_neg (by simpa using hk), ih]

theorem assocGet_assocAssign_ne (m : List (String × List Value))
    (k k' : String) (v : List Value) (h : k' ≠ k) :
    assocGet (assocAssign m k v) k' = assocGet m k' := by
  induction m with
  | nil => simp [assocAssign, assocGet, Ne.symm h]
  | cons hd tl ih =>
      obtain ⟨k0, v0⟩ := hd
      by_cases hk : k0 = k
      · subst hk
        simp [assocAssign, assocGet, Ne.symm h]
      · simp only [assocAssign, assocGet]
        rw [if_neg (by simpa using hk)]
        simp only [assocGet]
        by_cases hk' : k0 = k'
        · simp [hk']
        · simp [hk', ih]

/-! ## Claim theorems -/

/-- C3: the response extractor/repair follows the priority order: (1) direct
JSON parse of the trimmed text; failing that, (2) parse of the interior of a
fenced code block when the fence pattern matches; failing that, (3) parse of
the substring from the first opening brace to the last closing brace
inclusive; and (4) when all attempts fail, the caller-supplied default is
returned together with `ok = false`. -/
theorem C3_extractor_priority_order :
    (∀ (s : String) (d : Option Value) (v : Value),
      json_loads (pyStrip s) = some v → safe_parse_json s d = (v, true)) ∧
    (∀ (s : String) (d : Option Value) (g : List Char) (w : Value),
      json_loads (pyStrip s) = none →
      fenceSearch (pyStrip s).data = some g →
      json_loads (pyStrip (String.mk g)) = some w →
      safe_parse_json s d = (w, true)) ∧
    (∀ (s : String) (d : Option Value) (b : List Char) (w : Value),
      json_loads (pyStrip s) = none →
      fenceSearch (pyStrip s).data = none →
      braceWindow (pyStrip s).data = some b →
      json_loads (pyStrip (String.mk b)) = some w →
      safe_parse_json s d = (w, true)) ∧
    (∀ (s : String) (d : Value),
      json_loads (pyStrip s) = none →
      json_loads (extract_json_from_response s) = none →
      safe_parse_json s (some d) = (d, false)) := by
  refine ⟨?_, ?_, ?_, ?_⟩
  · intro s d v h
    simp [safe_parse_json, h]
  · intro s d g w h1 h2 h3
    simp [safe_parse_json, extract_json_from_response, h1, h2, h3]
  · intro s d b w h1 h2 h3 h4
    simp [safe_parse_json, extract_json_from_response, h1, h2, h3, h4]
  · intro s d h1 h2
    simp [safe_parse_json, h1, h2]

/-- Witness for C3 at four concrete replies, one per tier. -/
theorem C3_extractor_priority_order_witness :
    safe_parse_json " \x7b\"a\": 1\x7d " none =
      (.vdict [("a", .vint 1)], true) ∧
    safe_parse_json "Sure: ```json\n\x7b\"a\": 2\x7d\n``` done" none =
      (.vdict [("a", .vint 2)], true) ∧
    safe_parse_json "I think \x7b\"a\": 3\x7d helps" none =
      (.vdict [("a", .vint 3)], true) ∧
    safe_parse_json "no structured reply" (some (errDict "dflt")) =
      (errDict "dflt", false) :=
  ⟨C3_extractor_priority_order.1 _ none _ rfl,
   C3_extractor_priority_order.2.1 _ none ("\x7b\"a\": 2\x7d").data _ rfl rfl rfl,
   C3_extractor_priority_order.2.2.1 _ none ("\x7b\"a\": 3\x7d").data _ rfl rfl rfl rfl,
   C3_extractor_priority_order.2.2.2 _ _ rfl rfl⟩

/-- C5: the three tool dispatchers never propagate a failure to the caller:
an unknown tool name yields the `{error: ...}` dictionary with the store
untouched; a raised exception inside binding or the tool body is caught and
converted to an `{error: ...}` dictionary; and a successful invocation is
passed through unchanged, so success and failure are distinguished purely by
the presence of the `error` key. -/
theorem C5_dispatchers_convert_failures :
    (∀ (s : String) (params : Value) (db : DB),
      lookupTool AVAILABLE_UPDATE_TOOLS s = none →
      execute_update_tool (.vstr s) params db =
        (errDict ("Tool " ++ s ++ " not found"), db) ∧
      hasErrorKey (execute_update_tool (.vstr s) params db).1 = true) ∧
    (∀ (s : String) (f : ToolFn) (params : Value) (db db' : DB) (e : String),
      lookupTool AVAILABLE_UPDATE_TOOLS s = some f →
      f params db = (.error e, db') →
      execute_update_tool (.vstr s) params db =
        (errDict ("Tool execution error: " ++ e), db') ∧
      hasErrorKey (execute_update_tool (.vstr s) params db).1 = true) ∧
    (∀ (s : String) (f : ToolFn) (params : Value) (db db' : DB) (v : Value),
      lookupTool AVAILABLE_UPDATE_TOOLS s = some f →
      f params db = (.ok v, db') →
      execute_update_tool (.vstr s) params db = (v, db')) ∧
    (∀ (s : String) (params : Value) (db : DB),
      lookupTool AVAILABLE_CREATE_TOOLS s = none →
      execute_create_tool (.vstr s) params db =
        (errDict ("Tool " ++ s ++ " not found"), db) ∧
      hasErrorKey (execute_create_tool (.vstr s) params db).1 = true) ∧
    (∀ (s : String) (f : ToolFn) (params : Value) (db db' : DB) (e : String),
      lookupTool AVAILABLE_CREATE_TOOLS s = some f →
      f params db = (.error e, db') →
      execute_create_tool (.vstr s) params db =
        (errDict ("Tool execution error: " ++ e), db') ∧
      hasErrorKey (execute_create_tool (.vstr s) params db).1 = true) ∧
    (∀ (s : String) (f : ToolFn) (params : Value) (db db' : DB) (v : Value),
      lookupTool AVAILABLE_CREATE_TOOLS s = some f →
      f params db = (.ok v, db') →
      execute_create_tool (.vstr s) params db = (v, db')) ∧
    (∀ (s : String) (params : Value) (db : DB),
      lookupTool AVAILABLE_INFO_TOOLS s = none →
      execute_info_tool (.vstr s) params db =
        (errDict ("Tool " ++ s ++ " not found"), db) ∧
      hasErrorKey (execute_info_tool (.vstr s) params db).1 = true) ∧
    (∀ (s : String) (f : ToolFn) (params : Value) (db db' : DB) (e : String),
      lookupTool AVAILABLE_INFO_TOOLS s = some f →
      f params db = (.error e, db') →
      execute_info_tool (.vstr s) params db = (errDict e, db') ∧
      hasErrorKey (execute_info_tool (.vstr s) params db).1 = true) ∧
    (∀ (s : String) (f : ToolFn) (params : Value) (db db' : DB) (v : Value),
      lookupTool AVAILABLE_INFO_TOOLS s = some f →
      f params db = (.ok v, db') →
      execute_info_tool (.vstr s) params db = (v, db')) := by
  refine ⟨?_, ?_, ?_, ?_, ?_, ?_, ?_, ?_, ?_⟩ <;>
    intro s
  · intro params db h
    simp [execute_update_tool, h, hasErrorKey, errDict, dictLookup]
  · intro f params db db' e h1 h2
    simp [execute_update_tool, h1, h2, hasErrorKey, errDict, dictLookup]
  · intro f params db db' v h1 h2
    simp [execute_update_tool, h1, h2]
  · intro params db h
    simp [execute_create_tool, h, hasErrorKey, errDict, dictLookup]
  · intro f params db db' e h1 h2
    simp [execute_create_tool, h1, h2, hasErrorKey, errDict, dictLookup]
  · intro f params db db' v h1 h2
    simp [execute_create_tool, h1, h2]
  · intro params db h
    simp [execute_info_tool, h, hasErrorKey, errDict, dictLookup]
  · intro f params db db' e h1 h2
    simp [execute_info_tool, h1, h2, hasErrorKey, errDict, dictLookup]
  · intro f params db db' v h1 h2
    simp [execute_info_tool, h1, h2]

/-- Witness for C5: an unknown update tool, a creation call whose keyword
binding raises, and a successful info listing. -/
theorem C5_dispatchers_convert_failures_witness :
    execute_update_tool (.vstr "frobnicate") (.vdict []) mockDatabase =
      (errDict "Tool frobnicate not found", mockDatabase) ∧
    execute_create_tool (.vstr "create_automation_rule")
      (.vdict [("name", .vstr "R")]) mockDatabase =
      (errDict "Tool execution error: TypeError: missing required argument",
       mockDatabase) ∧
    execute_info_tool (.vstr "list_automation_rules") (.vdict [])
      mockDatabase = (.vlist mockDatabase.rules, mockDatabase) :=
  ⟨(C5_dispatchers_convert_failures.1 "frobnicate" (.vdict []) mockDatabase
      rfl).1,
   (C5_dispatchers_convert_failures.2.2.2.2.1 "create_automation_rule"
      create_automation_rule (.vdict [("name", .vstr "R")]) mockDatabase
      mockDatabase "TypeError: missing required argument" rfl rfl).1,
   C5_dispatchers_convert_failures.2.2.2.2.2.2.2.2 "list_automation_rules"
      list_automation_rules (.vdict []) mockDatabase mockDatabase
      (.vlist mockDatabase.rules) rfl rfl⟩

/-- C6: in the Update loop, once the accumulator records any successful
activation, deactivation, condition update or action update, the next
planning step forces completion (`next_action = "respond"` with the
completed flag set) regardless of the decision service's reply, and the loop
routes to the Responding node. -/
theorem C6_update_accumulator_takes_precedence :
    ∀ (s : UpdateAgentState) (reply : String) (db : DB),
      updateAccumDone s.updated_entities = true →
      ∃ s', plan_update_action_node s reply = some s' ∧
        s'.next_action = .vstr "respond" ∧
        s'.has_completed_update = .vbool true ∧
        (update_step { node := .plan, state := s, db := db } reply).node =
          LoopNode.don := by
  intro s reply db h
  have hex : ∃ s', plan_update_action_node s reply = some s' ∧
      s'.next_action = .vstr "respond" ∧
      s'.has_completed_update = .vbool true := by
    simp only [plan_update_action_node]
    split_ifs with h1 h2
    · exact ⟨_, rfl, rfl, rfl⟩
    · exact ⟨_, rfl, rfl, rfl⟩
    · exact ⟨_, rfl, rfl, rfl⟩
  obtain ⟨s', hp, hna, hcf⟩ := hex
  refine ⟨s', hp, hna, hcf, ?_⟩
  simp [update_step, hp, hna, routesToExecute, scalarEq]

/-- Witness for C6: one recorded deactivation forces the next planning step
to respond, whatever the model replies. -/
theorem C6_update_accumulator_takes_precedence_witness :
    updateAccumDone (.vdict [("deactivations",
      .vlist [.vdict [("success", .vbool true)]])]) = true ∧
    ∃ s', plan_update_action_node
        { initialUpdateState "Disable the rule named Energy Threshold Alert"
          with
          iteration_count := 2,
          updated_entities := .vdict [("deactivations",
            .vlist [.vdict [("success", .vbool true)]])] }
        "\x7b\"next_action\": \"call_tool\", \"selected_tool\": \"deactivate_automation_rule\", \"tool_parameters\": \x7b\"rule_id\": \"rule-003\"\x7d\x7d"
        = some s' ∧
      s'.next_action = .vstr "respond" ∧
      s'.has_completed_update = .vbool true ∧
      (update_step
        { node := .plan,
          state :=
            { initialUpdateState
                "Disable the rule named Energy Threshold Alert" with
              iteration_count := 2,
              updated_entities := .vdict [("deactivations",
                .vlist [.vdict [("success", .vbool true)]])] },
          db := mockDatabase }
        "\x7b\"next_action\": \"call_tool\", \"selected_tool\": \"deactivate_automation_rule\", \"tool_parameters\": \x7b\"rule_id\": \"rule-003\"\x7d\x7d").node
        = LoopNode.don :=
  ⟨rfl, C6_update_accumulator_takes_precedence _ _ mockDatabase rfl⟩

/-- C7: when an update-loop tool invocation returns an error result, the
validation error list grows by exactly the one error entry, the Entity
Accumulator is left unmerged, the store is whatever the dispatcher returned,
exactly one Tool Call Record is appended, and the workflow edge from the
executor leads back to Planning unconditionally (never to the terminal
node). -/
theorem C7_update_tool_errors_are_recoverable :
    ∀ (s : UpdateAgentState) (db : DB),
      pyTruthy s.selected_tool = true →
      hasErrorKey (execute_update_tool s.selected_tool s.tool_parameters
        db).1 = true →
      ((execute_update_tool_node s db).1.validation_errors =
        s.validation_errors ++
          [((execute_update_tool s.selected_tool s.tool_parameters
              db).1.lookup "error").getD .vnull] ∧
       (execute_update_tool_node s db).1.updated_entities =
         s.updated_entities ∧
       (execute_update_tool_node s db).2 =
         (execute_update_tool s.selected_tool s.tool_parameters db).2 ∧
       (execute_update_tool_node s db).1.tools_called.length =
         s.tools_called.length + 1) ∧
      (∀ (c : UpdateConfig) (r : String), c.node = .exec →
        (update_step c r).node = .plan) := by
  intro s db h1 h2
  constructor
  · simp only [execute_update_tool_node]
    rw [if_neg (by simp [h1])]
    simp [h2]
  · intro c r hc
    cases c with
    | mk node st d =>
        cases hc
        rfl

/-- Witness for C7: activating an unknown rule id yields an error result,
one new validation entry, and an untouched accumulator. -/
theorem C7_update_tool_errors_are_recoverable_witness :
    ((execute_update_tool_node
        { initialUpdateState "Activate rule nope" with
          selected_tool := .vstr "activate_automation_rule",
          tool_parameters := .vdict [("rule_id", .vstr "nope")] }
        mockDatabase).1.validation_errors =
      [] ++ [((execute_update_tool (.vstr "activate_automation_rule")
          (.vdict [("rule_id", .vstr "nope")]) mockDatabase).1.lookup
            "error").getD .vnull] ∧
     (execute_update_tool_node
        { initialUpdateState "Activate rule nope" with
          selected_tool := .vstr "activate_automation_rule",
          tool_parameters := .vdict [("rule_id", .vstr "nope")] }
        mockDatabase).1.updated_entities = .vdict [] ∧
     (execute_update_tool_node
        { initialUpdateState "Activate rule nope" with
          selected_tool := .vstr "activate_automation_rule",
          tool_parameters := .vdict [("rule_id", .vstr "nope")] }
        mockDatabase).2 =
       (execute_update_tool (.vstr "activate_automation_rule")
         (.vdict [("rule_id", .vstr "nope")]) mockDatabase).2 ∧
     (execute_update_tool_node
        { initialUpdateState "Activate rule nope" with
          selected_tool := .vstr "activate_automation_rule",
          tool_parameters := .vdict [("rule_id", .vstr "nope")] }
        mockDatabase).1.tools_called.length =
       ([] : List CallRec).length + 1) ∧
    (∀ (c : UpdateConfig) (r : String), c.node = .exec →
      (update_step c r).node = .plan) :=
  C7_update_tool_errors_are_recoverable
    { initialUpdateState "Activate rule nope" with
      selected_tool := .vstr "activate_automation_rule",
      tool_parameters := .vdict [("rule_id", .vstr "nope")] }
    mockDatabase rfl rfl

theorem findRuleScan_mem (rid : String) (rules : List Value)
    (hids : ∀ r ∈ rules, (r.lookup "id").isSome)
    (hmem : ∃ r ∈ rules, r.lookup "id" = some (.vstr rid)) :
    ∃ r0, findRuleScan (.vstr rid) rules = .ok (some r0) := by
  induction rules with
  | nil => simp at hmem
  | cons r tl ih =>
      have hid : (r.lookup "id").isSome := hids r (List.mem_cons_self r tl)
      obtain ⟨idv, hidv⟩ := Option.isSome_iff_exists.mp hid
      simp only [findRuleScan, hidv]
      by_cases he : scalarEq idv (.vstr rid) = true
      · rw [if_pos he]
        exact ⟨r, rfl⟩
      · rw [if_neg he]
        apply ih (fun r' hr' => hids r' (List.mem_cons_of_mem r hr'))
        obtain ⟨r', hr', hid'⟩ := hmem
        rcases List.mem_cons.mp hr' with hhead | htail
        · subst hhead
          rw [hidv] at hid'
          cases hid'
          simp [scalarEq] at he
        · exact ⟨r', htail, hid'⟩

/-- C10: calling `update_condition` with only `rule_id`, for a stored rule
with at least one condition, succeeds (`success = true`, no `error` key, the
fixed no-changes message), and the only change anywhere in the store is the
targeted condition's `updatedAt` timestamp. -/
theorem C10_update_condition_noop_success :
    ∀ (db : DB) (rid : String) (c : Value) (cs : List Value) (cidv : Value),
      (∀ r ∈ db.rules, (r.lookup "id").isSome) →
      (∃ r ∈ db.rules, r.lookup "id" = some (.vstr rid)) →
      assocGetD db.conditions rid = c :: cs →
      c.lookup "id" = some cidv →
      update_condition (.vdict [("rule_id", .vstr rid)]) db =
        (.ok (.vdict [("success", .vbool true), ("condition_id", cidv),
           ("rule_id", .vstr rid),
           ("message",
             .vstr "No changes were made. Provide parameters to update."),
           ("current_condition", vAssign c "updatedAt" (.vint db.nowTs))]),
         { db with conditions := (assocAssign db.conditions rid
             (vAssign c "updatedAt" (.vint db.nowTs) :: cs)) }) ∧
      (Value.vdict [("success", .vbool true), ("condition_id", cidv),
        ("rule_id", .vstr rid),
        ("message",
          .vstr "No changes were made. Provide parameters to update."),
        ("current_condition",
          vAssign c "updatedAt" (.vint db.nowTs))]).lookup "error" = none ∧
      (∀ k, k ≠ "updatedAt" →
        (vAssign c "updatedAt" (.vint db.nowTs)).lookup k = c.lookup k) ∧
      assocGetD (assocAssign db.conditions rid
        (vAssign c "updatedAt" (.vint db.nowTs) :: cs)) rid =
        vAssign c "updatedAt" (.vint db.nowTs) :: cs ∧
      (∀ rid', rid' ≠ rid →
        assocGetD (assocAssign db.conditions rid
          (vAssign c "updatedAt" (.vint db.nowTs) :: cs)) rid' =
          assocGetD db.conditions rid') := by
  intro db rid c cs cidv hids hmem hconds hcid
  obtain ⟨r0, hr0⟩ := findRuleScan_mem rid db.rules hids hmem
  have hstep : update_condition (.vdict [("rule_id", .vstr rid)]) db =
      (match findRuleScan (.vstr rid) db.rules with
       | .error e => (.error e, db)
       | .ok none =>
           (.ok (errDict ("Rule with ID " ++ rid ++ " not found")), db)
       | .ok (some _) =>
           if (assocGetD db.conditions rid).isEmpty then
             (.ok (errDict ("No conditions found for rule " ++ rid)), db)
           else
             updateCondCore db (.vstr rid) rid (assocGetD db.conditions rid)
               0 .vnull .vnull .vnull) := rfl
  have hlook : (vAssign c "updatedAt" (.vint db.nowTs)).lookup "id" =
      some cidv := by
    rw [lookup_vAssign_ne c "updatedAt" "id" _ (by decide), hcid]
  have hred : updateCondCore db (.vstr rid) rid (c :: cs) 0 .vnull .vnull
      .vnull =
      (match (vAssign c "updatedAt" (.vint db.nowTs)).lookup "id" with
       | none => (.error "KeyError: id",
           { db with conditions := (assocAssign db.conditions rid
               (vAssign c "updatedAt" (.vint db.nowTs) :: cs)) })
       | some cidv' =>
           (.ok (.vdict [("success", .vbool true), ("condition_id", cidv'),
              ("rule_id", .vstr rid),
              ("message",
                .vstr "No changes were made. Provide parameters to update."),
              ("current_condition",
                vAssign c "updatedAt" (.vint db.nowTs))]),
            { db with conditions := (assocAssign db.conditions rid
                (vAssign c "updatedAt" (.vint db.nowTs) :: cs)) })) := rfl
  have hcore : updateCondCore db (.vstr rid) rid (c :: cs) 0 .vnull .vnull
      .vnull =
      (.ok (.vdict [("success", .vbool true), ("condition_id", cidv),
         ("rule_id", .vstr rid),
         ("message",
           .vstr "No changes were made. Provide parameters to update."),
         ("current_condition", vAssign c "updatedAt" (.vint db.nowTs))]),
       { db with conditions := (assocAssign db.conditions rid
           (vAssign c "updatedAt" (.vint db.nowTs) :: cs)) }) := by
    rw [hred, hlook]
  refine ⟨?_, rfl, ?_, ?_, ?_⟩
  · rw [hstep, hr0, hconds]
    simp only [List.isEmpty]
    exact hcore
  · intro k hk
    exact lookup_vAssign_ne c "updatedAt" k _ hk
  · simp [assocGetD, assocGet_assocAssign_self]
  · intro rid' hne
    simp only [assocGetD, assocGet_assocAssign_ne db.conditions rid rid' _ hne]

/-- Witness for C10 on the seeded store: a `rule_id`-only call for
`rule-001` succeeds with the no-changes message and touches only
`updatedAt`. -/
theorem C10_update_condition_noop_success_witness :
    update_condition (.vdict [("rule_id", .vstr "rule-001")]) mockDatabase =
      (.ok (.vdict [("success", .vbool true),
         ("condition_id", .vstr "cond-001"), ("rule_id", .vstr "rule-001"),
         ("message",
           .vstr "No changes were made. Provide parameters to update."),
         ("current_condition", vAssign (.vdict [("id", .vstr "cond-001"),
           ("rule_id", .vstr "rule-001"),
           ("conditionType", .vstr "signalDetection"),
           ("parameters", .vdict [("minFrequencyMHz", .vint 3400),
             ("maxFrequencyMHz", .vint 3600), ("signalType", .vstr "5G")])])
           "updatedAt" (.vint 1717200000))]),
       { mockDatabase with conditions := (assocAssign mockDatabase.conditions
           "rule-001" (vAssign (.vdict [("id", .vstr "cond-001"),
             ("rule_id", .vstr "rule-001"),
             ("conditionType", .vstr "signalDetection"),
             ("parameters", .vdict [("minFrequencyMHz", .vint 3400),
               ("maxFrequencyMHz", .vint 3600), ("signalType", .vstr "5G")])])
             "updatedAt" (.vint 1717200000) :: [])) }) :=
  (C10_update_condition_noop_success mockDatabase "rule-001"
    (.vdict [("id", .vstr "cond-001"), ("rule_id", .vstr "rule-001"),
      ("conditionType", .vstr "signalDetection"),
      ("parameters", .vdict [("minFrequencyMHz", .vint 3400),
        ("maxFrequencyMHz", .vint 3600), ("signalType", .vstr "5G")])])
    [] (.vstr "cond-001") (by decide)
    ⟨_, List.mem_cons_self _ _, rfl⟩ rfl rfl).1

/-- C9 counterexample: merging the same activation result a second time
appends a duplicate accumulator entry — after the repeat merge the
`activations` collection holds two entries, not the one the claim
requires. -/
theorem C9_counterexample :
    lenV (vGetD (mergeUpdateEntities "q"
      (mergeUpdateEntities "q" (.vdict [])
        (.vstr "activate_automation_rule") (.vdict [("success", .vbool true)]))
      (.vstr "activate_automation_rule") (.vdict [("success", .vbool true)]))
      "activations" (.vlist [])) = 2 ∧
    lenV (vGetD (mergeUpdateEntities "q" (.vdict [])
      (.vstr "activate_automation_rule") (.vdict [("success", .vbool true)]))
      "activations" (.vlist [])) = 1 ∧
    (2 : Nat) ≠ 1 := by
  refine ⟨rfl, rfl, by decide⟩

/-- C2 counterexample: a planning step entered at the iteration ceiling
(count 8 = ceiling 8 in the Update loop) forces completion WITHOUT
incrementing the iteration count — it stays 8 instead of becoming 9 as the
claim requires. -/
theorem C2_counterexample :
    Option.map (fun s => s.iteration_count)
      (plan_update_action_node
        { initialUpdateState "q" with iteration_count := 8 } "") = some 8 ∧
    Option.map (fun s => s.iteration_count)
      (plan_update_action_node
        { initialUpdateState "q" with iteration_count := 8 } "") ≠ some 9 := by
  refine ⟨rfl, by decide⟩

/-- C2 amended: each planning step increments the iteration count by exactly
one — including parse-failure and unresolvable-rule forced steps — EXCEPT
the forced-ceiling step in all three loops and the Create loop's
accumulator-completion steps, which leave the count unchanged. -/
theorem C2_planning_step_increment :
    (∀ (s : UpdateAgentState) (r : String) (s' : UpdateAgentState),
      s.iteration_count < s.max_iterations →
      plan_update_action_node s r = some s' →
      s'.iteration_count = s.iteration_count + 1) ∧
    (∀ (s : UpdateAgentState) (r : String) (s' : UpdateAgentState),
      s.max_iterations ≤ s.iteration_count →
      plan_update_action_node s r = some s' →
      s'.iteration_count = s.iteration_count) ∧
    (∀ (s : CreateAgentState) (r : String) (s' : CreateAgentState),
      s.iteration_count < s.max_iterations →
      lenV (vGetD s.created_entities "rules" (.vlist [])) = 0 →
      plan_creation_action_node s r = some s' →
      s'.iteration_count = s.iteration_count + 1) ∧
    (∀ (s : CreateAgentState) (r : String) (s' : CreateAgentState),
      s.iteration_count < s.max_iterations →
      0 < lenV (vGetD s.created_entities "rules" (.vlist [])) →
      plan_creation_action_node s r = some s' →
      s'.iteration_count = s.iteration_count) ∧
    (∀ (s : CreateAgentState) (r : String) (s' : CreateAgentState),
      s.max_iterations ≤ s.iteration_count →
      plan_creation_action_node s r = some s' →
      s'.iteration_count = s.iteration_count) ∧
    (∀ (s : InfoAgentState) (r : String) (s' : InfoAgentState),
      s.iteration_count < s.max_iterations →
      plan_next_action_node s r = some s' →
      s'.iteration_count = s.iteration_count + 1) ∧
    (∀ (s : InfoAgentState) (r : String) (s' : InfoAgentState),
      s.max_iterations ≤ s.iteration_count →
      plan_next_action_node s r = some s' →
      s'.iteration_count = s.iteration_count) := by
  refine ⟨?_, ?_, ?_, ?_, ?_, ?_, ?_⟩
  · intro s r s' hlt hp
    simp only [plan_update_action_node] at hp
    rw [if_neg (not_le.mpr hlt)] at hp
    split_ifs at hp with h1 h2
    · obtain rfl := Option.some.inj hp
      rfl
    · obtain rfl := Option.some.inj hp
      rfl
    · rcases hps : safe_parse_json r (some updDefaultResponse) with ⟨res, ok⟩
      rw [hps] at hp
      cases ok
      · obtain rfl := Option.some.inj hp
        rfl
      · cases res <;> simp only [] at hp <;> cases hp <;> rfl
  · intro s r s' hle hp
    simp only [plan_update_action_node] at hp
    rw [if_pos hle] at hp
    obtain rfl := Option.some.inj hp
    rfl
  · intro s r s' hlt he hp
    simp only [plan_creation_action_node] at hp
    rw [if_neg (not_le.mpr hlt)] at hp
    rw [he] at hp
    simp only [lt_irrefl, false_and, if_false, Bool.false_and] at hp
    norm_num at hp
    rcases hps : safe_parse_json r (some createDefaultResponse) with ⟨res, ok⟩
    rw [hps] at hp
    cases ok
    · obtain rfl := Option.some.inj hp
      rfl
    · cases res <;> simp only [] at hp <;> cases hp <;> rfl
  · intro s r s' hlt he hp
    simp only [plan_creation_action_node] at hp
    rw [if_neg (not_le.mpr hlt)] at hp
    split_ifs at hp with h1
    · obtain rfl := Option.some.inj hp
      rfl
    · obtain rfl := Option.some.inj hp
      rfl
  · intro s r s' hle hp
    simp only [plan_creation_action_node] at hp
    rw [if_pos hle] at hp
    obtain rfl := Option.some.inj hp
    rfl
  · intro s r s' hlt hp
    simp only [plan_next_action_node] at hp
    rw [if_neg (not_le.mpr hlt)] at hp
    rcases hps : json_loads (pyStrip r) with _ | res
    · rw [hps] at hp
      obtain rfl := Option.some.inj hp
      rfl
    · rw [hps] at hp
      cases res <;> simp only [] at hp <;> cases hp <;> rfl
  · intro s r s' hle hp
    simp only [plan_next_action_node] at hp
    rw [if_pos hle] at hp
    obtain rfl := Option.some.inj hp
    rfl

/-- Witness for C2 amended: a parse-failure planning step in the Update loop
increments the count by exactly one, and an Info-loop ceiling step leaves it
unchanged. -/
theorem C2_planning_step_increment_witness :
    (∀ s', plan_update_action_node (initialUpdateState "hi") "no json here" =
      some s' → s'.iteration_count = 0 + 1) ∧
    (∀ s', plan_next_action_node
      { initialInfoState "hi" with iteration_count := 5 } "irrelevant" =
      some s' → s'.iteration_count = 5) :=
  ⟨fun s' hp => C2_planning_step_increment.1 (initialUpdateState "hi")
      "no json here" s' (by decide) hp,
   fun s' hp => C2_planning_step_increment.2.2.2.2.2.2
      { initialInfoState "hi" with iteration_count := 5 } "irrelevant" s'
      (by decide) hp⟩

theorem planUpdate_iter_cases (s : UpdateAgentState) (r : String)
    (s' : UpdateAgentState) (hp : plan_update_action_node s r = some s') :
    s'.max_iterations = s.max_iterations ∧
    (s'.iteration_count = s.iteration_count ∨
     (s.iteration_count < s.max_iterations ∧
      s'.iteration_count = s.iteration_count + 1)) := by
  by_cases hlt : s.iteration_count < s.max_iterations
  · simp only [plan_update_action_node] at hp
    rw [if_neg (not_le.mpr hlt)] at hp
    split_ifs at hp with h1 h2
    · obtain rfl := Option.some.inj hp
      exact ⟨rfl, Or.inr ⟨hlt, rfl⟩⟩
    · obtain rfl := Option.some.inj hp
      exact ⟨rfl, Or.inr ⟨hlt, rfl⟩⟩
    · rcases hps : safe_parse_json r (some updDefaultResponse) with ⟨res, ok⟩
      rw [hps] at hp
      cases ok
      · obtain rfl := Option.some.inj hp
        exact ⟨rfl, Or.inr ⟨hlt, rfl⟩⟩
      · cases res <;> cases hp <;> exact ⟨rfl, Or.inr ⟨hlt, rfl⟩⟩
  · simp only [plan_update_action_node] at hp
    rw [if_pos (not_lt.mp hlt)] at hp
    obtain rfl := Option.some.inj hp
    exact ⟨rfl, Or.inl rfl⟩

theorem planCreate_iter_cases (s : CreateAgentState) (r : String)
    (s' : CreateAgentState) (hp : plan_creation_action_node s r = some s') :
    s'.max_iterations = s.max_iterations ∧
    (s'.iteration_count = s.iteration_count ∨
     (s.iteration_count < s.max_iterations ∧
      s'.iteration_count = s.iteration_count + 1)) := by
  by_cases hlt : s.iteration_count < s.max_iterations
  · simp only [plan_creation_action_node] at hp
    rw [if_neg (not_le.mpr hlt)] at hp
    split_ifs at hp with h1 h2
    · obtain rfl := Option.some.inj hp
      exact ⟨rfl, Or.inl rfl⟩
    · obtain rfl := Option.some.inj hp
      exact ⟨rfl, Or.inl rfl⟩
    · rcases hps : safe_parse_json r (some createDefaultResponse) with ⟨res, ok⟩
      rw [hps] at hp
      cases ok
      · obtain rfl := Option.some.inj hp
        exact ⟨rfl, Or.inr ⟨hlt, rfl⟩⟩
      · cases res <;> cases hp <;> exact ⟨rfl, Or.inr ⟨hlt, rfl⟩⟩
  · simp only [plan_creation_action_node] at hp
    rw [if_pos (not_lt.mp hlt)] at hp
    obtain rfl := Option.some.inj hp
    exact ⟨rfl, Or.inl rfl⟩

theorem planInfo_iter_cases (s : InfoAgentState) (r : String)
    (s' : InfoAgentState) (hp : plan_next_action_node s r = some s') :
    s'.max_iterations = s.max_iterations ∧
    (s'.iteration_count = s.iteration_count ∨
     (s.iteration_count < s.max_iterations ∧
      s'.iteration_count = s.iteration_count + 1)) := by
  by_cases hlt : s.iteration_count < s.max_iterations
  · simp only [plan_next_action_node] at hp
    rw [if_neg (not_le.mpr hlt)] at hp
    rcases hps : json_loads (pyStrip r) with _ | res
    · rw [hps] at hp
      obtain rfl := Option.some.inj hp
      exact ⟨rfl, Or.inr ⟨hlt, rfl⟩⟩
    · rw [hps] at hp
      cases res <;> cases hp <;> exact ⟨rfl, Or.inr ⟨hlt, rfl⟩⟩
  · simp only [plan_next_action_node] at hp
    rw [if_pos (not_lt.mp hlt)] at hp
    obtain rfl := Option.some.inj hp
    exact ⟨rfl, Or.inl rfl⟩

theorem execUpdate_iter (s : UpdateAgentState) (db : DB) :
    (execute_update_tool_node s db).1.iteration_count = s.iteration_count ∧
    (execute_update_tool_node s db).1.max_iterations = s.max_iterations := by
  simp only [execute_update_tool_node]
  split_ifs <;> exact ⟨rfl, rfl⟩

theorem execCreate_iter (s : CreateAgentState) (db : DB) :
    (execute_creation_tool_node s db).1.iteration_count =
      s.iteration_count ∧
    (execute_creation_tool_node s db).1.max_iterations =
      s.max_iterations := by
  simp only [execute_creation_tool_node]
  split_ifs <;> exact ⟨rfl, rfl⟩

theorem execInfo_iter (s : InfoAgentState) (db : DB) (s' : InfoAgentState)
    (db' : DB) (hp : execute_info_tool_node s db = some (s', db')) :
    s'.iteration_count = s.iteration_count ∧
    s'.max_iterations = s.max_iterations := by
  simp only [execute_info_tool_node] at hp
  split_ifs at hp <;>
    first
      | (have h2 := Option.some.inj hp
         rw [Prod.ext_iff] at h2
         obtain ⟨h3, h4⟩ := h2
         subst h3
         exact ⟨rfl, rfl⟩)
      | (rw [Option.map_eq_some'] at hp
         obtain ⟨g, hg2, heq⟩ := hp
         rw [Prod.ext_iff] at heq
         obtain ⟨h3, h4⟩ := heq
         subst h3
         exact ⟨rfl, rfl⟩)

theorem update_step_bound (c : UpdateConfig) (r : String)
    (h1 : c.state.iteration_count ≤ c.state.max_iterations) :
    (update_step c r).state.iteration_count ≤
      (update_step c r).state.max_iterations ∧
    (update_step c r).state.max_iterations = c.state.max_iterations := by
  obtain ⟨node, st, db⟩ := c
  cases node
  · simp only [update_step]
    rcases hp : plan_update_action_node st r with _ | s'
    · exact ⟨h1, rfl⟩
    · obtain ⟨hm, hc⟩ := planUpdate_iter_cases st r s' hp
      rcases hc with he | ⟨hlt, he⟩
      · exact ⟨by rw [he, hm]; exact h1, hm⟩
      · exact ⟨by rw [he, hm]; exact hlt, hm⟩
  · obtain ⟨hc, hm⟩ := execUpdate_iter st db
    exact ⟨by rw [update_step]; rw [hc, hm]; exact h1, by rw [update_step]; exact hm⟩
  · exact ⟨h1, rfl⟩
  · exact ⟨h1, rfl⟩

theorem create_step_bound (c : CreateConfig) (r : String)
    (h1 : c.state.iteration_count ≤ c.state.max_iterations) :
    (create_step c r).state.iteration_count ≤
      (create_step c r).state.max_iterations ∧
    (create_step c r).state.max_iterations = c.state.max_iterations := by
  obtain ⟨node, st, db⟩ := c
  cases node
  · simp only [create_step]
    rcases hp : plan_creation_action_node st r with _ | s'
    · exact ⟨h1, rfl⟩
    · obtain ⟨hm, hc⟩ := planCreate_iter_cases st r s' hp
      rcases hc with he | ⟨hlt, he⟩
      · exact ⟨by rw [he, hm]; exact h1, hm⟩
      · exact ⟨by rw [he, hm]; exact hlt, hm⟩
  · obtain ⟨hc, hm⟩ := execCreate_iter st db
    exact ⟨by rw [create_step]; rw [hc, hm]; exact h1, by rw [create_step]; exact hm⟩
  · exact ⟨h1, rfl⟩
  · exact ⟨h1, rfl⟩

theorem info_step_bound (c : InfoConfig) (r : String)
    (h1 : c.state.iteration_count ≤ c.state.max_iterations) :
    (info_step c r).state.iteration_count ≤
      (info_step c r).state.max_iterations ∧
    (info_step c r).state.max_iterations = c.state.max_iterations := by
  obtain ⟨node, st, db⟩ := c
  cases node
  · simp only [info_step]
    rcases hp : plan_next_action_node st r with _ | s'
    · exact ⟨h1, rfl⟩
    · obtain ⟨hm, hc⟩ := planInfo_iter_cases st r s' hp
      rcases hc with he | ⟨hlt, he⟩
      · exact ⟨by rw [he, hm]; exact h1, hm⟩
      · exact ⟨by rw [he, hm]; exact hlt, hm⟩
  · simp only [info_step]
    rcases hp : execute_info_tool_node st db with _ | sd
    · exact ⟨h1, rfl⟩
    · obtain ⟨s', db'⟩ := sd
      obtain ⟨hc, hm⟩ := execInfo_iter st db s' db' hp
      exact ⟨by rw [hc, hm]; exact h1, hm⟩
  · exact ⟨h1, rfl⟩
  · exact ⟨h1, rfl⟩

theorem update_run_bound (replies : List String) :
    ∀ (c : UpdateConfig),
      c.state.iteration_count ≤ c.state.max_iterations →
      (update_run replies c).state.iteration_count ≤
        (update_run replies c).state.max_iterations ∧
      (update_run replies c).state.max_iterations =
        c.state.max_iterations := by
  induction replies with
  | nil =>
      intro c h
      exact ⟨h, rfl⟩
  | cons r rs ih =>
      intro c h
      obtain ⟨hb, hm⟩ := update_step_bound c r h
      obtain ⟨hb2, hm2⟩ := ih (update_step c r) hb
      exact ⟨hb2, hm2.trans hm⟩

theorem create_run_bound (replies : List String) :
    ∀ (c : CreateConfig),
      c.state.iteration_count ≤ c.state.max_iterations →
      (create_run replies c).state.iteration_count ≤
        (create_run replies c).state.max_iterations ∧
      (create_run replies c).state.max_iterations =
        c.state.max_iterations := by
  induction replies with
  | nil =>
      intro c h
      exact ⟨h, rfl⟩
  | cons r rs ih =>
      intro c h
      obtain ⟨hb, hm⟩ := create_step_bound c r h
      obtain ⟨hb2, hm2⟩ := ih (create_step c r) hb
      exact ⟨hb2, hm2.trans hm⟩

theorem info_run_bound (replies : List String) :
    ∀ (c : InfoConfig),
      c.state.iteration_count ≤ c.state.max_iterations →
      (info_run replies c).state.iteration_count ≤
        (info_run replies c).state.max_iterations ∧
      (info_run replies c).state.max_iterations =
        c.state.max_iterations := by
  induction replies with
  | nil =>
      intro c h
      exact ⟨h, rfl⟩
  | cons r rs ih =>
      intro c h
      obtain ⟨hb, hm⟩ := info_step_bound c r h
      obtain ⟨hb2, hm2⟩ := ih (info_step c r) hb
      exact ⟨hb2, hm2.trans hm⟩

set_option maxRecDepth 8000 in
/-- C1 counterexample: a decision-service reply that signals completion via
the completion flag (`has_completed_update: true`) while choosing
`next_action: "call_tool"` does NOT make the loop exit at that planning
step — the workflow routes to the executor, not to Responding, because
routing reads only `next_action`. -/
theorem C1_counterexample :
    Option.map (fun s => s.has_completed_update)
      (plan_update_action_node (initialUpdateState "Activate the 5G Monitor")
        "\x7b\"next_action\": \"call_tool\", \"reasoning\": \"r\", \"has_completed_update\": true, \"selected_tool\": \"activate_automation_rule\", \"tool_parameters\": \x7b\"rule_id\": \"rule-001\"\x7d\x7d")
      = some (.vbool true) ∧
    (update_step
      { node := .plan,
        state := initialUpdateState "Activate the 5G Monitor",
        db := mockDatabase }
      "\x7b\"next_action\": \"call_tool\", \"reasoning\": \"r\", \"has_completed_update\": true, \"selected_tool\": \"activate_automation_rule\", \"tool_parameters\": \x7b\"rule_id\": \"rule-001\"\x7d\x7d").node
      = LoopNode.exec := by
  exact ⟨rfl, rfl⟩

/-- C1 amended: for every run of each domain agent loop, the iteration count
at any point (in particular at loop exit) never exceeds the loop's ceiling
(8 for Create and Update, 5 for Info), and a planning step exits to the
Responding node exactly when the planned `next_action` is not `"call_tool"`
(forced ceiling, accumulator completion, parse failure, unresolvable rule
reference, or an explicit `"respond"` decision) — the decision's completion
flag alone does not trigger exit. -/
theorem C1_iteration_bound_and_exit :
    (∀ (q : String) (db : DB) (replies : List String),
      (update_run replies
        { node := .plan, state := initialUpdateState q, db := db
        }).state.iteration_count ≤ 8) ∧
    (∀ (q : String) (db : DB) (replies : List String),
      (create_run replies
        { node := .plan, state := initialCreateState q, db := db
        }).state.iteration_count ≤ 8) ∧
    (∀ (q : String) (db : DB) (replies : List String),
      (info_run replies
        { node := .plan, state := initialInfoState q, db := db
        }).state.iteration_count ≤ 5) ∧
    (∀ (c : UpdateConfig) (r : String), c.node = .plan →
      ((update_step c r).node = LoopNode.don ↔
        ∃ s', plan_update_action_node c.state r = some s' ∧
          routesToExecute s'.next_action = false)) ∧
    (∀ (c : CreateConfig) (r : String), c.node = .plan →
      ((create_step c r).node = LoopNode.don ↔
        ∃ s', plan_creation_action_node c.state r = some s' ∧
          routesToExecute s'.next_action = false)) ∧
    (∀ (c : InfoConfig) (r : String), c.node = .plan →
      ((info_step c r).node = LoopNode.don ↔
        ∃ s', plan_next_action_node c.state r = some s' ∧
          routesToExecute s'.next_action = false)) := by
  refine ⟨?_, ?_, ?_, ?_, ?_, ?_⟩
  · intro q db replies
    obtain ⟨hb, hm⟩ := update_run_bound replies
      { node := .plan, state := initialUpdateState q, db := db }
      (Nat.zero_le _)
    rw [hm] at hb
    exact hb
  · intro q db replies
    obtain ⟨hb, hm⟩ := create_run_bound replies
      { node := .plan, state := initialCreateState q, db := db }
      (Nat.zero_le _)
    rw [hm] at hb
    exact hb
  · intro q db replies
    obtain ⟨hb, hm⟩ := info_run_bound replies
      { node := .plan, state := initialInfoState q, db := db }
      (Nat.zero_le _)
    rw [hm] at hb
    exact hb
  · intro c r hc
    obtain ⟨node, st, db⟩ := c
    cases hc
    simp only [update_step]
    rcases hp : plan_update_action_node st r with _ | s'
    · simp
    · by_cases hr : routesToExecute s'.next_action = true
      · simp [hr]
      · have hr' : routesToExecute s'.next_action = false := by
          simpa using hr
        simp [hr']
  · intro c r hc
    obtain ⟨node, st, db⟩ := c
    cases hc
    simp only [create_step]
    rcases hp : plan_creation_action_node st r with _ | s'
    · simp
    · by_cases hr : routesToExecute s'.next_action = true
      · simp [hr]
      · have hr' : routesToExecute s'.next_action = false := by
          simpa using hr
        simp [hr']
  · intro c r hc
    obtain ⟨node, st, db⟩ := c
    cases hc
    simp only [info_step]
    rcases hp : plan_next_action_node st r with _ | s'
    · simp
    · by_cases hr : routesToExecute s'.next_action = true
      · simp [hr]
      · have hr' : routesToExecute s'.next_action = false := by
          simpa using hr
        simp [hr']

/-- Witness for C1: a concrete two-step Update run stays within the ceiling,
and the exit characterization applied at a concrete planning configuration
of each of the three loops. -/
theorem C1_iteration_bound_and_exit_witness :
    (update_run ["not json", "x"]
      { node := .plan, state := initialUpdateState "hi", db := mockDatabase
      }).state.iteration_count ≤ 8 ∧
    ((update_step
        { node := .plan, state := initialUpdateState "hi",
          db := mockDatabase } "not json").node = LoopNode.don ↔
      ∃ s', plan_update_action_node (initialUpdateState "hi") "not json" =
        some s' ∧ routesToExecute s'.next_action = false) ∧
    ((create_step
        { node := .plan, state := initialCreateState "hi",
          db := mockDatabase } "not json").node = LoopNode.don ↔
      ∃ s', plan_creation_action_node (initialCreateState "hi") "not json" =
        some s' ∧ routesToExecute s'.next_action = false) ∧
    ((info_step
        { node := .plan, state := initialInfoState "hi",
          db := mockDatabase } "not json").node = LoopNode.don ↔
      ∃ s', plan_next_action_node (initialInfoState "hi") "not json" =
        some s' ∧ routesToExecute s'.next_action = false) :=
  ⟨C1_iteration_bound_and_exit.1 "hi" mockDatabase ["not json", "x"],
   C1_iteration_bound_and_exit.2.2.2.1
     { node := .plan, state := initialUpdateState "hi", db := mockDatabase }
     "not json" rfl,
   C1_iteration_bound_and_exit.2.2.2.2.1
     { node := .plan, state := initialCreateState "hi", db := mockDatabase }
     "not json" rfl,
   C1_iteration_bound_and_exit.2.2.2.2.2
     { node := .plan, state := initialInfoState "hi", db := mockDatabase }
     "not json" rfl⟩

set_option maxRecDepth 8000 in
/-- C4 counterexample: a decision wrapped in a markdown fence is recoverable
by the three-tier extractor (`safe_parse_json` succeeds on it), yet the Info
loop's planning step — which only attempts a direct `json.loads` of the
trimmed reply — treats it as a parse failure and forces completion. -/
theorem C4_counterexample :
    (safe_parse_json
      "```json\n\x7b\"next_action\": \"call_tool\", \"selected_tool\": \"list_automation_rules\", \"tool_parameters\": \x7b\x7d, \"has_sufficient_data\": false\x7d\n```"
      none).2 = true ∧
    Option.map (fun s => (s.next_action, s.has_sufficient_data))
      (plan_next_action_node (initialInfoState "Show all automation rules")
        "```json\n\x7b\"next_action\": \"call_tool\", \"selected_tool\": \"list_automation_rules\", \"tool_parameters\": \x7b\x7d, \"has_sufficient_data\": false\x7d\n```")
      = some (.vstr "respond", .vbool true) := by
  exact ⟨rfl, rfl⟩

/-- C4 amended: the Create and Update planning steps parse the decision
reply through the three-tier `safe_parse_json` and recover fenced or
prose-wrapped decisions, but the Info planning step only attempts the direct
parse: any reply that is not bare JSON forces completion there. -/
theorem C4_parse_paths_by_loop :
    (∀ (s : InfoAgentState) (r : String),
      s.iteration_count < s.max_iterations →
      json_loads (pyStrip r) = none →
      ∃ s', plan_next_action_node s r = some s' ∧
        s'.next_action = .vstr "respond" ∧
        s'.has_sufficient_data = .vbool true ∧
        s'.iteration_count = s.iteration_count + 1) ∧
    (∀ (s : UpdateAgentState) (r : String) (kvs : List (String × Value)),
      s.iteration_count < s.max_iterations →
      lenV (vGetD s.updated_entities "retrieved_rules" (.vlist [])) = 0 →
      updateAccumDone s.updated_entities = false →
      safe_parse_json r (some updDefaultResponse) = (.vdict kvs, true) →
      ∃ s', plan_update_action_node s r = some s' ∧
        s'.next_action = vGetD (.vdict kvs) "next_action" (.vstr "respond") ∧
        s'.tool_parameters =
          vGetD (.vdict kvs) "tool_parameters" (.vdict [])) ∧
    (∀ (s : CreateAgentState) (r : String) (kvs : List (String × Value)),
      s.iteration_count < s.max_iterations →
      lenV (vGetD s.created_entities "rules" (.vlist [])) = 0 →
      safe_parse_json r (some createDefaultResponse) = (.vdict kvs, true) →
      ∃ s', plan_creation_action_node s r = some s' ∧
        s'.next_action = vGetD (.vdict kvs) "next_action" (.vstr "respond") ∧
        s'.tool_parameters =
          vGetD (.vdict kvs) "tool_parameters" (.vdict [])) := by
  refine ⟨?_, ?_, ?_⟩
  · intro s r hlt hj
    simp only [plan_next_action_node]
    rw [if_neg (not_le.mpr hlt), hj]
    exact ⟨_, rfl, rfl, rfl, rfl⟩
  · intro s r kvs hlt he hacc hps
    simp only [plan_update_action_node]
    rw [if_neg (not_le.mpr hlt)]
    rw [he, hacc]
    norm_num
    rw [hps]
    exact ⟨_, rfl, rfl, rfl⟩
  · intro s r kvs hlt he hps
    simp only [plan_creation_action_node]
    rw [if_neg (not_le.mpr hlt)]
    rw [he]
    norm_num
    rw [hps]
    exact ⟨_, rfl, rfl, rfl⟩

set_option maxRecDepth 8000 in
/-- Witness for C4: the Info planner forces completion on non-JSON prose,
while the Update planner recovers the decision from a fenced reply. -/
theorem C4_parse_paths_by_loop_witness :
    (∃ s', plan_next_action_node (initialInfoState "q")
        "Sorry, here is my thinking instead." = some s' ∧
      s'.next_action = .vstr "respond" ∧
      s'.has_sufficient_data = .vbool true ∧
      s'.iteration_count = 0 + 1) ∧
    (∃ s', plan_update_action_node (initialUpdateState "q")
        "```json\n\x7b\"next_action\": \"respond\", \"tool_parameters\": \x7b\x7d\x7d\n```" = some s' ∧
      s'.next_action = vGetD (.vdict [("next_action", .vstr "respond"),
        ("tool_parameters", .vdict [])]) "next_action" (.vstr "respond") ∧
      s'.tool_parameters = vGetD (.vdict [("next_action", .vstr "respond"),
        ("tool_parameters", .vdict [])]) "tool_parameters" (.vdict [])) :=
  ⟨C4_parse_paths_by_loop.1 (initialInfoState "q")
      "Sorry, here is my thinking instead." (by decide) rfl,
   C4_parse_paths_by_loop.2.1 (initialUpdateState "q")
      "```json\n\x7b\"next_action\": \"respond\", \"tool_parameters\": \x7b\x7d\x7d\n```"
      [("next_action", .vstr "respond"), ("tool_parameters", .vdict [])]
      (by decide) rfl rfl rfl⟩

theorem findTargetRule_retrieved (q : String) (e : Value) :
    ∀ (rules : List Value),
      (findTargetRule q e rules).lookup "retrieved_rules" =
        e.lookup "retrieved_rules" := by
  intro rules
  induction rules with
  | nil => rfl
  | cons r tl ih =>
      simp only [findTargetRule]
      split
      · split_ifs
        · rw [lookup_vAssign_ne _ _ _ _ (by decide),
            lookup_vAssign_ne _ _ _ _ (by decide)]
        · exact ih
      · exact ih

theorem appendToListKey_lookup_ne (e : Value) (key k' : String) (x : Value)
    (h : k' ≠ key) :
    (appendToListKey e key x).lookup k' = e.lookup k' := by
  unfold appendToListKey
  split
  · exact lookup_vAssign_ne _ _ _ _ h
  · rfl
  · exact lookup_vAssign_ne _ _ _ _ h

theorem merge_retrieved_pos (q : String) (e t res : Value)
    (hpos : 0 < lenV (vGetD e "retrieved_rules" (.vlist [])))
    (hlist : scalarEq t (.vstr "list_automation_rules") = true →
      0 < lenV res) :
    0 < lenV (vGetD (mergeUpdateEntities q e t res) "retrieved_rules"
      (.vlist [])) := by
  have he : ∃ kvs, e = .vdict kvs := by
    cases e <;> simp [vGetD, Value.lookup, lenV] at hpos <;> exact ⟨_, rfl⟩
  obtain ⟨kvs, rfl⟩ := he
  unfold mergeUpdateEntities
  split_ifs with h1 h2 h3 h4 h5
  · -- list branch
    have hres := hlist h1
    split
    · rw [vGetD, findTargetRule_retrieved, lookup_vAssign_self]
      exact hres
    · rw [vGetD, lookup_vAssign_self]
      exact hres
  · rw [vGetD, appendToListKey_lookup_ne _ _ _ _ (by decide)]
    exact hpos
  · rw [vGetD, appendToListKey_lookup_ne _ _ _ _ (by decide)]
    exact hpos
  · rw [vGetD, appendToListKey_lookup_ne _ _ _ _ (by decide)]
    exact hpos
  · rw [vGetD, appendToListKey_lookup_ne _ _ _ _ (by decide)]
    exact hpos
  · exact hpos

theorem list_automation_rules_outcome (p : Value) (db : DB) :
    ((list_automation_rules p db).1 = .ok (.vlist db.rules) ∧
      (list_automation_rules p db).2 = db) ∨
    (∃ e, (list_automation_rules p db).1 = .error e ∧
      (list_automation_rules p db).2 = db) := by
  rcases p with _ | b | n | s | xs | kvs
  · exact Or.inr ⟨_, rfl, rfl⟩
  · exact Or.inr ⟨_, rfl, rfl⟩
  · exact Or.inr ⟨_, rfl, rfl⟩
  · exact Or.inr ⟨_, rfl, rfl⟩
  · exact Or.inr ⟨_, rfl, rfl⟩
  · cases kvs
    · exact Or.inl ⟨rfl, rfl⟩
    · exact Or.inr ⟨_, rfl, rfl⟩

theorem activateScan_rules_ne (db : DB) (rid : Value)
    (h : db.rules ≠ []) :
    ∀ (rules seen : List Value),
      (activateScan db rid seen rules).2.rules ≠ [] := by
  intro rules
  induction rules with
  | nil =>
      intro seen
      simpa [activateScan] using h
  | cons r tl ih =>
      intro seen
      simp only [activateScan]
      repeat' split
      all_goals first
        | exact h
        | exact ih (r :: seen)
        | simp

theorem deactivateScan_rules_ne (db : DB) (rid : Value)
    (h : db.rules ≠ []) :
    ∀ (rules seen : List Value),
      (deactivateScan db rid seen rules).2.rules ≠ [] := by
  intro rules
  induction rules with
  | nil =>
      intro seen
      simpa [deactivateScan] using h
  | cons r tl ih =>
      intro seen
      simp only [deactivateScan]
      repeat' split
      all_goals first
        | exact h
        | exact ih (r :: seen)
        | simp

theorem updateCondCore_rules_eq (db : DB) (rule_id : Value) (ridS : String)
    (conds : List Value) (i : Nat) (ct ps d : Value) :
    (updateCondCore db rule_id ridS conds i ct ps d).2.rules = db.rules := by
  unfold updateCondCore
  dsimp only
  repeat' split
  all_goals rfl

theorem updateActCore_rules_eq (db : DB) (rule_id : Value) (ridS : String)
    (acts : List Value) (i : Nat) (at_ ps d : Value) :
    (updateActCore db rule_id ridS acts i at_ ps d).2.rules = db.rules := by
  unfold updateActCore
  dsimp only
  repeat' split
  all_goals rfl

theorem update_condition_rules_eq (p : Value) (db : DB) :
    (update_condition p db).2.rules = db.rules := by
  unfold update_condition
  dsimp only
  repeat' split
  all_goals first | rfl | apply updateCondCore_rules_eq

theorem update_action_rules_eq (p : Value) (db : DB) :
    (update_action p db).2.rules = db.rules := by
  unfold update_action
  dsimp only
  repeat' split
  all_goals first | rfl | apply updateActCore_rules_eq

theorem execute_update_tool_rules_ne (t p : Value) (db : DB)
    (h : db.rules ≠ []) : (execute_update_tool t p db).2.rules ≠ [] := by
  rcases t with _ | b | n | s | xs | kvs
  · exact h
  · exact h
  · exact h
  case vstr =>
    simp only [execute_update_tool, lookupTool, AVAILABLE_UPDATE_TOOLS]
    split_ifs
    all_goals dsimp only
    · rcases hfp : list_automation_rules p db with ⟨res, db'⟩
      have h2 : (list_automation_rules p db).2 = db' := by rw [hfp]
      have hdb : db'.rules ≠ [] := by
        rcases list_automation_rules_outcome p db with ⟨_, hd⟩ | ⟨e, _, hd⟩ <;>
          (rw [hd] at h2; rw [← h2]; exact h)
      cases res <;> simpa using hdb
    · rcases hfp : activate_automation_rule p db with ⟨res, db'⟩
      have h2 : (activate_automation_rule p db).2 = db' := by rw [hfp]
      have hdb : db'.rules ≠ [] := by
        rw [← h2]
        unfold activate_automation_rule
        split
        · exact h
        · exact activateScan_rules_ne db _ h db.rules []
      cases res <;> simpa using hdb
    · rcases hfp : deactivate_automation_rule p db with ⟨res, db'⟩
      have h2 : (deactivate_automation_rule p db).2 = db' := by rw [hfp]
      have hdb : db'.rules ≠ [] := by
        rw [← h2]
        unfold deactivate_automation_rule
        split
        · exact h
        · exact deactivateScan_rules_ne db _ h db.rules []
      cases res <;> simpa using hdb
    · rcases hfp : update_condition p db with ⟨res, db'⟩
      have h2 : (update_condition p db).2 = db' := by rw [hfp]
      have hdb : db'.rules ≠ [] := by
        rw [← h2, update_condition_rules_eq]
        exact h
      cases res <;> simpa using hdb
    · rcases hfp : update_action p db with ⟨res, db'⟩
      have h2 : (update_action p db).2 = db' := by rw [hfp]
      have hdb : db'.rules ≠ [] := by
        rw [← h2, update_action_rules_eq]
        exact h
      cases res <;> simpa using hdb
    · exact h
  · exact h
  · exact h

theorem planUpdate_entities_eq (s : UpdateAgentState) (r : String)
    (s' : UpdateAgentState) (hp : plan_update_action_node s r = some s') :
    s'.updated_entities = s.updated_entities := by
  simp only [plan_update_action_node] at hp
  split_ifs at hp with h0 h1 h2
  · obtain rfl := Option.some.inj hp
    rfl
  · obtain rfl := Option.some.inj hp
    rfl
  · obtain rfl := Option.some.inj hp
    rfl
  · rcases hps : safe_parse_json r (some updDefaultResponse) with ⟨res, ok⟩
    rw [hps] at hp
    cases ok
    · obtain rfl := Option.some.inj hp
      rfl
    · cases res <;> cases hp <;> rfl

theorem scalarEq_vstr (t : Value) (s : String)
    (h : scalarEq t (.vstr s) = true) : t = .vstr s := by
  cases t with
  | vnull => exact absurd h Bool.false_ne_true
  | vbool b => exact absurd h Bool.false_ne_true
  | vint n => exact absurd h Bool.false_ne_true
  | vstr a =>
      have ha : a = s := by simpa [scalarEq] using h
      rw [ha]
  | vlist xs => exact absurd h Bool.false_ne_true
  | vdict kvs => exact absurd h Bool.false_ne_true

theorem execute_update_tool_list_pos (p : Value) (db : DB)
    (h : db.rules ≠ [])
    (hne : hasErrorKey
      (execute_update_tool (.vstr "list_automation_rules") p db).1 = false) :
    0 < lenV (execute_update_tool (.vstr "list_automation_rules") p db).1 := by
  rcases list_automation_rules_outcome p db with ⟨h1, h2⟩ | ⟨e, h1, h2⟩
  · have heq : list_automation_rules p db = (.ok (.vlist db.rules), db) :=
      Prod.ext h1 h2
    have hres : execute_update_tool (.vstr "list_automation_rules") p db =
        (.vlist db.rules, db) := by
      simp only [execute_update_tool, lookupTool, AVAILABLE_UPDATE_TOOLS,
        beq_self_eq_true, if_true]
      rw [heq]
    rw [hres]
    simpa [lenV] using List.length_pos.mpr h
  · have heq : list_automation_rules p db = (.error e, db) := Prod.ext h1 h2
    have hres : execute_update_tool (.vstr "list_automation_rules") p db =
        (errDict ("Tool execution error: " ++ e), db) := by
      simp only [execute_update_tool, lookupTool, AVAILABLE_UPDATE_TOOLS,
        beq_self_eq_true, if_true]
      rw [heq]
    rw [hres] at hne
    simp [hasErrorKey, errDict, dictLookup] at hne

theorem execUpdateNode_entities (s : UpdateAgentState) (db : DB) :
    (execute_update_tool_node s db).1.updated_entities =
      (if !(pyTruthy s.selected_tool) then s.updated_entities
       else if hasErrorKey
           (execute_update_tool s.selected_tool s.tool_parameters db).1 then
         s.updated_entities
       else mergeUpdateEntities s.user_query s.updated_entities
         s.selected_tool
         (execute_update_tool s.selected_tool s.tool_parameters db).1) := by
  unfold execute_update_tool_node
  dsimp only
  split_ifs <;> rfl

theorem execUpdateNode_db (s : UpdateAgentState) (db : DB) :
    (execute_update_tool_node s db).2 =
      (if !(pyTruthy s.selected_tool) then db
       else (execute_update_tool s.selected_tool s.tool_parameters db).2) := by
  unfold execute_update_tool_node
  dsimp only
  split_ifs <;> rfl

theorem execUpdate_retrieved_inv (s : UpdateAgentState) (db : DB)
    (hpos : 0 < lenV (vGetD s.updated_entities "retrieved_rules" (.vlist [])))
    (hdb : db.rules ≠ []) :
    0 < lenV (vGetD (execute_update_tool_node s db).1.updated_entities
      "retrieved_rules" (.vlist [])) ∧
    (execute_update_tool_node s db).2.rules ≠ [] := by
  constructor
  · rw [execUpdateNode_entities]
    split_ifs with a b
    · exact hpos
    · exact hpos
    · apply merge_retrieved_pos _ _ _ _ hpos
      intro hl
      have ht := scalarEq_vstr _ _ hl
      rw [ht] at b ⊢
      exact execute_update_tool_list_pos s.tool_parameters db hdb
        (by simpa using b)
  · rw [execUpdateNode_db]
    split_ifs with a
    · exact hdb
    · exact execute_update_tool_rules_ne _ _ _ hdb

theorem update_step_inv (c : UpdateConfig) (r : String)
    (hpos : 0 < lenV (vGetD c.state.updated_entities "retrieved_rules"
      (.vlist [])))
    (hdb : c.db.rules ≠ []) :
    0 < lenV (vGetD (update_step c r).state.updated_entities
      "retrieved_rules" (.vlist [])) ∧
    (update_step c r).db.rules ≠ [] := by
  obtain ⟨node, s, db⟩ := c
  cases node with
  | plan =>
      simp only [update_step]
      cases hp : plan_update_action_node s r with
      | none => exact ⟨hpos, hdb⟩
      | some s1 =>
          refine ⟨?_, hdb⟩
          show 0 < lenV (vGetD s1.updated_entities "retrieved_rules"
            (.vlist []))
          rw [planUpdate_entities_eq s r s1 hp]
          exact hpos
  | exec =>
      simp only [update_step]
      exact execUpdate_retrieved_inv s db hpos hdb
  | don => exact ⟨hpos, hdb⟩
  | crashed => exact ⟨hpos, hdb⟩

theorem update_run_inv (replies : List String) :
    ∀ (c : UpdateConfig),
      0 < lenV (vGetD c.state.updated_entities "retrieved_rules"
        (.vlist [])) →
      c.db.rules ≠ [] →
      0 < lenV (vGetD (update_run replies c).state.updated_entities
        "retrieved_rules" (.vlist [])) ∧
      (update_run replies c).db.rules ≠ [] := by
  induction replies with
  | nil =>
      intro c hpos hdb
      exact ⟨hpos, hdb⟩
  | cons r rs ih =>
      intro c hpos hdb
      have h := update_step_inv c r hpos hdb
      simpa only [update_run] using ih (update_step c r) h.1 h.2

theorem update_presented_excludes_list (s : UpdateAgentState)
    (h : 0 < lenV (vGetD s.updated_entities "retrieved_rules" (.vlist []))) :
    "list_automation_rules" ∉ update_presented_tools s := by
  unfold update_presented_tools
  dsimp only
  split_ifs with h1 h2 h3
  · simp
  · simp
  · simp
  · intro hmem
    have hf := List.of_mem_filter hmem
    simp at hf

/-- A decision-service reply selecting the listing tool in the Info loop. -/
def c8InfoReply : String :=
  "\x7b\"next_action\": \"call_tool\", \"reasoning\": \"list\", \"has_sufficient_data\": false, \"selected_tool\": \"list_automation_rules\", \"tool_parameters\": \x7b\x7d\x7d"

/-- An Info-loop run that lists all rules once: plan (selects
`list_automation_rules`) then execute (stores the listing under
`all_rules`), leaving the workflow back at the planning node. -/
def c8InfoRunCfg : InfoConfig :=
  info_run [c8InfoReply, "executor step ignores the reply"]
    { node := .plan, state := initialInfoState "show me all automation rules",
      db := mockDatabase }

set_option maxRecDepth 8000 in
/-- **C8, counterexample.**  The claim quantifies over every domain agent
loop, but `plan_next_action_node` (Info loop) builds its tool descriptions
from the whole registry on every non-forced planning step: after a run in
which `list_automation_rules` has been executed and the full listing is
already stored in the accumulator under `all_rules`, the next planning step
is again presented the complete registry, `list_automation_rules`
included.  (The Create planner likewise never filters its registry.) -/
theorem C8_counterexample :
    c8InfoRunCfg.node = .plan ∧
    vGetD c8InfoRunCfg.state.gathered_data "all_rules" (.vlist []) =
      .vlist mockDatabase.rules ∧
    info_presented_tools c8InfoRunCfg.state = infoToolNames ∧
    "list_automation_rules" ∈ infoToolNames :=
  ⟨rfl, rfl, rfl, by decide⟩

/-- **C8** (corrected).  Monotone narrowing holds for the Update loop only:
whenever the accumulator holds a non-empty `retrieved_rules` listing, the
update planner never again presents `list_automation_rules` — both at any
single such state, and at the state reached by any further scheduler steps
of a run from such a state (the listing, once retrieved, stays non-empty:
planning leaves the accumulator untouched, merging only reassigns
`retrieved_rules` with a fresh non-empty listing, and no update tool ever
empties the store's rule list).  The Info and Create planners present their
full registries on every non-forced step, so the spec sentence fails for
those loops (see the counterexample). -/
theorem C8_list_tool_monotone_exclusion :
    (∀ s : UpdateAgentState,
      0 < lenV (vGetD s.updated_entities "retrieved_rules" (.vlist [])) →
      "list_automation_rules" ∉ update_presented_tools s) ∧
    (∀ (replies : List String) (c : UpdateConfig),
      0 < lenV (vGetD c.state.updated_entities "retrieved_rules"
        (.vlist [])) →
      c.db.rules ≠ [] →
      "list_automation_rules" ∉
        update_presented_tools (update_run replies c).state) := by
  constructor
  · intro s h
    exact update_presented_excludes_list s h
  · intro replies c hpos hdb
    exact update_presented_excludes_list _
      (update_run_inv replies c hpos hdb).1

/-- An update state in which the rule listing has been retrieved and the
target rule resolved. -/
def c8UpdState : UpdateAgentState :=
  { initialUpdateState "activate the high temperature alert rule" with
    updated_entities := .vdict
      [("retrieved_rules", .vlist [.vstr "rule"]),
       ("target_rule_id", .vstr "rule-001")] }

def c8UpdCfg : UpdateConfig :=
  { node := .plan, state := c8UpdState, db := mockDatabase }

theorem C8_list_tool_monotone_exclusion_witness :
    0 < lenV (vGetD c8UpdState.updated_entities "retrieved_rules"
      (.vlist [])) ∧
    "list_automation_rules" ∉ update_presented_tools c8UpdState ∧
    "list_automation_rules" ∉ update_presented_tools
      (update_run ["first reply", "second reply"] c8UpdCfg).state :=
  ⟨by decide,
   C8_list_tool_monotone_exclusion.1 c8UpdState (by decide),
   C8_list_tool_monotone_exclusion.2 ["first reply", "second reply"]
     c8UpdCfg (by decide) (by exact fun hcon => List.noConfusion hcon)⟩

theorem appendToListKey_lookup_self (e : Value) (key : String) (x : Value)
    (xs : List Value) (h : e.lookup key = some (.vlist xs)) :
    (appendToListKey e key x).lookup key = some (.vlist (xs ++ [x])) := by
  have he : ∃ kvs, e = .vdict kvs := by
    cases e <;> simp [Value.lookup] at h <;> exact ⟨_, rfl⟩
  obtain ⟨kvs, rfl⟩ := he
  unfold appendToListKey
  rw [h]
  exact lookup_vAssign_self kvs key _

/-- C9 amended: in both the Update and the Create accumulators, the merge is
append-per-invocation, not keyed by Tool Call Record — each merge of a
successful result appends exactly one new entry to each collection selected
by the tool (so re-merging an already-merged record's result appends a
duplicate), and each executor invocation runs the merge exactly once while
appending exactly one Tool Call Record, which is why entries are not
duplicated within a run. -/
theorem C9_merge_appends_per_invocation :
    (∀ (q : String) (kvs : List (String × Value)) (r : Value) (xs : List Value),
      dictLookup kvs "activations" = some (.vlist xs) →
      (mergeUpdateEntities q (.vdict kvs)
        (.vstr "activate_automation_rule") r).lookup "activations" =
        some (.vlist (xs ++ [r]))) ∧
    (∀ (q : String) (kvs : List (String × Value)) (r : Value) (xs : List Value),
      dictLookup kvs "deactivations" = some (.vlist xs) →
      (mergeUpdateEntities q (.vdict kvs)
        (.vstr "deactivate_automation_rule") r).lookup "deactivations" =
        some (.vlist (xs ++ [r]))) ∧
    (∀ (q : String) (kvs : List (String × Value)) (r : Value) (xs : List Value),
      dictLookup kvs "conditions" = some (.vlist xs) →
      (mergeUpdateEntities q (.vdict kvs)
        (.vstr "update_condition") r).lookup "conditions" =
        some (.vlist (xs ++ [r]))) ∧
    (∀ (q : String) (kvs : List (String × Value)) (r : Value) (xs : List Value),
      dictLookup kvs "actions" = some (.vlist xs) →
      (mergeUpdateEntities q (.vdict kvs)
        (.vstr "update_action") r).lookup "actions" =
        some (.vlist (xs ++ [r]))) ∧
    (∀ (q : String) (kvs : List (String × Value)) (r : Value),
      dictLookup kvs "activations" = none →
      (mergeUpdateEntities q (.vdict kvs)
        (.vstr "activate_automation_rule") r).lookup "activations" =
        some (.vlist [r])) ∧
    (∀ (q : String) (kvs : List (String × Value)) (r : Value),
      dictLookup kvs "deactivations" = none →
      (mergeUpdateEntities q (.vdict kvs)
        (.vstr "deactivate_automation_rule") r).lookup "deactivations" =
        some (.vlist [r])) ∧
    (∀ (s : UpdateAgentState) (db : DB),
      pyTruthy s.selected_tool = true →
      hasErrorKey (execute_update_tool s.selected_tool s.tool_parameters
        db).1 = false →
      (execute_update_tool_node s db).1.updated_entities =
        mergeUpdateEntities s.user_query s.updated_entities s.selected_tool
          (execute_update_tool s.selected_tool s.tool_parameters db).1 ∧
      (execute_update_tool_node s db).1.tools_called.length =
        s.tools_called.length + 1) ∧
    (∀ (kvs : List (String × Value)) (r : Value) (xs : List Value),
      dictLookup kvs "rules" = some (.vlist xs) →
      (mergeCreationEntities (.vdict kvs)
        (.vstr "create_automation_rule") r).lookup "rules" =
        some (.vlist (xs ++ [r]))) ∧
    (∀ (kvs : List (String × Value)) (r : Value) (xs : List Value),
      dictLookup kvs "conditions" = some (.vlist xs) →
      (mergeCreationEntities (.vdict kvs)
        (.vstr "create_rule_condition") r).lookup "conditions" =
        some (.vlist (xs ++ [vGetD r "condition" .vnull]))) ∧
    (∀ (kvs : List (String × Value)) (r : Value) (xs : List Value),
      dictLookup kvs "actions" = some (.vlist xs) →
      (mergeCreationEntities (.vdict kvs)
        (.vstr "create_rule_action") r).lookup "actions" =
        some (.vlist (xs ++ [vGetD r "action" .vnull]))) ∧
    (∀ (kvs : List (String × Value)) (r : Value) (xs ys : List Value),
      dictLookup kvs "conditions" = some (.vlist xs) →
      dictLookup kvs "actions" = some (.vlist ys) →
      (mergeCreationEntities (.vdict kvs)
        (.vstr "create_rule_condition_action") r).lookup "conditions" =
        some (.vlist (xs ++ [vGetD r "condition" .vnull])) ∧
      (mergeCreationEntities (.vdict kvs)
        (.vstr "create_rule_condition_action") r).lookup "actions" =
        some (.vlist (ys ++ [vGetD r "action" .vnull]))) ∧
    (∀ (s : CreateAgentState) (db : DB),
      pyTruthy s.selected_tool = true →
      hasErrorKey (execute_create_tool s.selected_tool s.tool_parameters
        db).1 = false →
      (execute_creation_tool_node s db).1.created_entities =
        mergeCreationEntities s.created_entities s.selected_tool
          (execute_create_tool s.selected_tool s.tool_parameters db).1 ∧
      (execute_creation_tool_node s db).1.tools_called.length =
        s.tools_called.length + 1) := by
  refine ⟨?_, ?_, ?_, ?_, ?_, ?_, ?_, ?_, ?_, ?_, ?_, ?_⟩
  · intro q kvs r xs hl
    show (appendToListKey (.vdict kvs) "activations" r).lookup "activations"
      = _
    simp only [appendToListKey, Value.lookup, hl]
    exact lookup_vAssign_self kvs "activations" _
  · intro q kvs r xs hl
    show (appendToListKey (.vdict kvs) "deactivations"
      r).lookup "deactivations" = _
    simp only [appendToListKey, Value.lookup, hl]
    exact lookup_vAssign_self kvs "deactivations" _
  · intro q kvs r xs hl
    show (appendToListKey (.vdict kvs) "conditions" r).lookup "conditions" = _
    simp only [appendToListKey, Value.lookup, hl]
    exact lookup_vAssign_self kvs "conditions" _
  · intro q kvs r xs hl
    show (appendToListKey (.vdict kvs) "actions" r).lookup "actions" = _
    simp only [appendToListKey, Value.lookup, hl]
    exact lookup_vAssign_self kvs "actions" _
  · intro q kvs r hl
    show (appendToListKey (.vdict kvs) "activations" r).lookup "activations"
      = _
    simp only [appendToListKey, Value.lookup, hl]
    exact lookup_vAssign_self kvs "activations" _
  · intro q kvs r hl
    show (appendToListKey (.vdict kvs) "deactivations"
      r).lookup "deactivations" = _
    simp only [appendToListKey, Value.lookup, hl]
    exact lookup_vAssign_self kvs "deactivations" _
  · intro s db h1 h2
    constructor
    · simp only [execute_update_tool_node]
      rw [if_neg (by simp [h1])]
      simp [h2]
    · simp only [execute_update_tool_node]
      rw [if_neg (by simp [h1])]
      simp [h2]
  · intro kvs r xs hl
    show (vAssign (appendToListKey (.vdict kvs) "rules" r) "last_rule_id"
      (vGetD r "id" .vnull)).lookup "rules" = _
    rw [lookup_vAssign_ne _ _ _ _ (by decide)]
    exact appendToListKey_lookup_self _ _ _ _
      (by simpa [Value.lookup] using hl)
  · intro kvs r xs hl
    show (vAssign (appendToListKey (vAssign (appendToListKey (.vdict kvs)
      "rules" (vGetD r "rule" .vnull)) "last_rule_id"
      (vGetD r "rule_id" .vnull)) "conditions"
      (vGetD r "condition" .vnull)) "last_condition_id"
      (vGetD r "condition_id" .vnull)).lookup "conditions" = _
    rw [lookup_vAssign_ne _ _ _ _ (by decide)]
    apply appendToListKey_lookup_self
    rw [lookup_vAssign_ne _ _ _ _ (by decide),
      appendToListKey_lookup_ne _ _ _ _ (by decide)]
    simpa [Value.lookup] using hl
  · intro kvs r xs hl
    show (vAssign (appendToListKey (vAssign (appendToListKey (.vdict kvs)
      "rules" (vGetD r "rule" .vnull)) "last_rule_id"
      (vGetD r "rule_id" .vnull)) "actions"
      (vGetD r "action" .vnull)) "last_action_id"
      (vGetD r "action_id" .vnull)).lookup "actions" = _
    rw [lookup_vAssign_ne _ _ _ _ (by decide)]
    apply appendToListKey_lookup_self
    rw [lookup_vAssign_ne _ _ _ _ (by decide),
      appendToListKey_lookup_ne _ _ _ _ (by decide)]
    simpa [Value.lookup] using hl
  · intro kvs r xs ys hc ha
    constructor
    · show (vAssign (appendToListKey (vAssign (appendToListKey (vAssign
        (appendToListKey (.vdict kvs) "rules" (vGetD r "rule" .vnull))
        "last_rule_id" (vGetD r "rule_id" .vnull)) "conditions"
        (vGetD r "condition" .vnull)) "last_condition_id"
        (vGetD r "condition_id" .vnull)) "actions"
        (vGetD r "action" .vnull)) "last_action_id"
        (vGetD r "action_id" .vnull)).lookup "conditions" = _
      rw [lookup_vAssign_ne _ _ _ _ (by decide),
        appendToListKey_lookup_ne _ _ _ _ (by decide),
        lookup_vAssign_ne _ _ _ _ (by decide)]
      apply appendToListKey_lookup_self
      rw [lookup_vAssign_ne _ _ _ _ (by decide),
        appendToListKey_lookup_ne _ _ _ _ (by decide)]
      simpa [Value.lookup] using hc
    · show (vAssign (appendToListKey (vAssign (appendToListKey (vAssign
        (appendToListKey (.vdict kvs) "rules" (vGetD r "rule" .vnull))
        "last_rule_id" (vGetD r "rule_id" .vnull)) "conditions"
        (vGetD r "condition" .vnull)) "last_condition_id"
        (vGetD r "condition_id" .vnull)) "actions"
        (vGetD r "action" .vnull)) "last_action_id"
        (vGetD r "action_id" .vnull)).lookup "actions" = _
      rw [lookup_vAssign_ne _ _ _ _ (by decide)]
      apply appendToListKey_lookup_self
      rw [lookup_vAssign_ne _ _ _ _ (by decide),
        appendToListKey_lookup_ne _ _ _ _ (by decide),
        lookup_vAssign_ne _ _ _ _ (by decide),
        appendToListKey_lookup_ne _ _ _ _ (by decide)]
      simpa [Value.lookup] using ha
  · intro s db h1 h2
    constructor
    · simp only [execute_creation_tool_node]
      rw [if_neg (by simp [h1])]
      simp [h2]
    · simp only [execute_creation_tool_node]
      rw [if_neg (by simp [h1])]
      simp [h2]

/-- Witness for C9 amended: one merge of a deactivation result (Update
domain) and of a created-rule result (Create domain) each append exactly
the one entry. -/
theorem C9_merge_appends_per_invocation_witness :
    (mergeUpdateEntities "q"
      (.vdict [("deactivations", .vlist [.vdict [("status", .vstr "ok")]])])
      (.vstr "deactivate_automation_rule")
      (.vdict [("success", .vbool true)])).lookup "deactivations" =
      some (.vlist ([.vdict [("status", .vstr "ok")]] ++
        [.vdict [("success", .vbool true)]])) ∧
    (mergeCreationEntities
      (.vdict [("rules", .vlist [.vdict [("id", .vstr "rule-100")]])])
      (.vstr "create_automation_rule")
      (.vdict [("id", .vstr "rule-101")])).lookup "rules" =
      some (.vlist ([.vdict [("id", .vstr "rule-100")]] ++
        [.vdict [("id", .vstr "rule-101")]])) :=
  ⟨C9_merge_appends_per_invocation.2.1 "q"
    [("deactivations", .vlist [.vdict [("status", .vstr "ok")]])]
    (.vdict [("success", .vbool true)]) [.vdict [("status", .vstr "ok")]] rfl,
   C9_merge_appends_per_invocation.2.2.2.2.2.2.2.1
    [("rules", .vlist [.vdict [("id", .vstr "rule-100")]])]
    (.vdict [("id", .vstr "rule-101")]) [.vdict [("id", .vstr "rule-100")]]
    rfl⟩
